import Mathlib

/-!
A verification development for the ai-orchestrator repository.

The Python sources are shallowly embedded as executable Lean definitions:

* `src/k8s/controllers/load_balancer.py` — circuit breaker, pool endpoints,
  session affinity, pool filtering and weighted selection.
* `src/executor/sandbox.py` — the Docker sandbox with hard timeout
  enforcement and its ad-hoc file path handling.
* `src/executor/filesystem.py` — `SecurePathValidator` and the validated
  `FileSystemManager` file API.
* `src/executor/session.py` — the TTL-bounded `SessionManager`.
* `src/k8s/controllers/session_persistence.py` — the cached/durable
  `SessionPersistenceManager`.

Mutable Python objects become explicit state passing; `time.time()` becomes
an explicit `now` argument; Docker and Redis become explicit in-memory state
components together with an observation log of the I/O calls performed, so
that "no filesystem interaction" style properties are expressible.  Floats
are modelled as rationals (`ℚ`): none of the verified properties depend on
rounding.  Randomness (`random.choice` / `random.uniform`) is modelled by an
explicit oracle argument standing for the seeded PRNG draws.
-/

namespace AIOrchestrator

/-! ## Association-list maps with Python dict semantics

Python dicts preserve insertion order; assigning to an existing key updates
the value in place, assigning to a fresh key appends.  We mirror that with
association lists. -/

/-- Lookup in an association list (first binding wins, as in a dict there is
at most one binding per key). -/
def alookup {β : Type} (l : List (String × β)) (k : String) : Option β :=
  match l with
  | [] => none
  | (k', v) :: rest => if k' = k then some v else alookup rest k

/-- Dict assignment: update in place if the key is present, append otherwise. -/
def ainsert {β : Type} (l : List (String × β)) (k : String) (v : β) :
    List (String × β) :=
  match l with
  | [] => [(k, v)]
  | (k', v') :: rest =>
      if k' = k then (k', v) :: rest else (k', v') :: ainsert rest k v

/-- Dict `del`: remove the binding for a key, if present. -/
def aerase {β : Type} (l : List (String × β)) (k : String) :
    List (String × β) :=
  match l with
  | [] => []
  | (k', v') :: rest =>
      if k' = k then rest else (k', v') :: aerase rest k

/-! ## Circuit breaker (`load_balancer.py`, class `CircuitBreaker`)

`time.time()` is passed explicitly as `now : ℚ`.  `can_execute` mutates the
breaker (the open → half-open transition), so it returns the new breaker
together with the boolean. -/

inductive CircuitState where
  | closed
  | open_
  | half_open
deriving DecidableEq, Repr

structure CircuitBreaker where
  failure_threshold : Nat := 5
  recovery_timeout : ℚ := 30
  half_open_max_calls : Nat := 3
  state : CircuitState := .closed
  failure_count : Nat := 0
  success_count : Nat := 0
  last_failure_time : ℚ := 0
deriving DecidableEq, Repr

namespace CircuitBreaker

/-- `CircuitBreaker.record_success`. In half-open, counts successes and closes
once `half_open_max_calls` consecutive successes are seen; otherwise decays
the failure counter (`max(0, failure_count - 1)` is truncated subtraction). -/
def record_success (cb : CircuitBreaker) : CircuitBreaker :=
  if cb.state = .half_open then
    let sc := cb.success_count + 1
    if cb.half_open_max_calls ≤ sc then
      { cb with state := .closed, failure_count := 0, success_count := 0 }
    else
      { cb with success_count := sc }
  else
    { cb with failure_count := cb.failure_count - 1 }

/-- `CircuitBreaker.record_failure`. Always increments the failure counter and
stamps the failure time; re-opens immediately from half-open, opens from
closed once the counter reaches the threshold. -/
def record_failure (cb : CircuitBreaker) (now : ℚ) : CircuitBreaker :=
  let cb' := { cb with
    failure_count := cb.failure_count + 1
    last_failure_time := now }
  if cb'.state = .half_open then
    { cb' with state := .open_ }
  else if cb'.failure_threshold ≤ cb'.failure_count then
    { cb' with state := .open_ }
  else
    cb'

/-- `CircuitBreaker.can_execute`. Closed and half-open admit requests; open
admits only once the recovery timeout has elapsed since the last failure, and
that check transitions the breaker to half-open as a side effect. -/
def can_execute (cb : CircuitBreaker) (now : ℚ) : CircuitBreaker × Bool :=
  match cb.state with
  | .closed => (cb, true)
  | .open_ =>
      if cb.recovery_timeout ≤ now - cb.last_failure_time then
        ({ cb with state := .half_open, success_count := 0 }, true)
      else
        (cb, false)
  | .half_open => (cb, true)

/-- A freshly registered pool gets `CircuitBreaker()` with all defaults. -/
def default_breaker : CircuitBreaker := {}

end CircuitBreaker


/-! ## Pool endpoints, session affinity, and the global load balancer
(`load_balancer.py`)

The Redis store becomes two in-memory hashes (`redis_affinities`,
`redis_pools`); `random.choice` and `random.uniform(0, total)` become the two
fields of a `RandomOracle` standing for the draws of the seeded PRNG.
Key-expiry of the Redis affinity hash (`redis.expire`) is not modelled; the
affinity TTL check itself (`SessionAffinity.is_expired`) is. -/

inductive PoolStatus where
  | healthy
  | degraded
  | unhealthy
  | offline
deriving DecidableEq, Repr

structure PoolEndpoint where
  name : String
  region : String
  url : String
  weight : Int := 100
  priority : Int := 1
  max_sessions : Nat := 100
  current_sessions : Nat := 0
  status : PoolStatus := .healthy
  last_health_check : ℚ := 0
  response_time_ms : ℚ := 0
  error_rate : ℚ := 0
  cpu_utilization : ℚ := 0
  memory_utilization : ℚ := 0
  queue_depth : Int := 0
deriving DecidableEq, Repr

structure SessionAffinity where
  session_id : String
  pool_name : String
  created_at : ℚ
  ttl : ℚ := 3600
deriving DecidableEq, Repr

/-- `SessionAffinity.is_expired`: `time.time() - created_at > ttl`. -/
def SessionAffinity.is_expired (a : SessionAffinity) (now : ℚ) : Bool :=
  decide (a.ttl < now - a.created_at)

/-- The two PRNG draws `_select_weighted_pool` may consume: the index drawn
by `random.choice` (taken modulo the list length) and the value drawn by
`random.uniform(0, total_score)`. -/
structure RandomOracle where
  choice_index : Nat
  uniform_draw : ℚ
deriving DecidableEq, Repr

structure GlobalLoadBalancer where
  enable_geo_routing : Bool := false
  pools : List (String × PoolEndpoint) := []
  circuit_breakers : List (String × CircuitBreaker) := []
  session_affinities : List (String × SessionAffinity) := []
  redis_affinities : List (String × SessionAffinity) := []
  redis_pools : List (String × PoolEndpoint) := []
deriving Repr

namespace GlobalLoadBalancer

/-- `GlobalLoadBalancer._get_session_affinity`: local cache first (deleting an
expired cached entry), then the Redis hash (caching an unexpired hit, deleting
an expired one). -/
def _get_session_affinity (lb : GlobalLoadBalancer) (now : ℚ)
    (session_id : String) : GlobalLoadBalancer × Option SessionAffinity :=
  let check_redis := fun (lb' : GlobalLoadBalancer) =>
    match alookup lb'.redis_affinities session_id with
    | some a =>
        if ¬ a.is_expired now then
          ({ lb' with
              session_affinities := ainsert lb'.session_affinities session_id a },
            some a)
        else
          ({ lb' with
              redis_affinities := aerase lb'.redis_affinities session_id },
            none)
    | none => (lb', none)
  match alookup lb.session_affinities session_id with
  | some a =>
      if ¬ a.is_expired now then (lb, some a)
      else
        check_redis
          { lb with
              session_affinities := aerase lb.session_affinities session_id }
  | none => check_redis lb

/-- `GlobalLoadBalancer._set_session_affinity`: a fresh binding with
`created_at = now` and the default one-hour TTL, written to the local cache
and the Redis hash. -/
def _set_session_affinity (lb : GlobalLoadBalancer) (now : ℚ)
    (session_id pool_name : String) : GlobalLoadBalancer :=
  let affinity : SessionAffinity :=
    { session_id := session_id, pool_name := pool_name, created_at := now }
  { lb with
      session_affinities := ainsert lb.session_affinities session_id affinity
      redis_affinities := ainsert lb.redis_affinities session_id affinity }

/-- `current_sessions / max_sessions`, the utilization ratio used as a sort
key (the source only evaluates it on pools with spare capacity, so
`max_sessions > 0` there). -/
def utilization_ratio (p : PoolEndpoint) : ℚ :=
  (p.current_sessions : ℚ) / (p.max_sessions : ℚ)

/-- The stable ascending sort order of `_get_available_pools`: with geographic
routing enabled and a (truthy, hence non-empty) preferred region the key is
`(region mismatch, priority, utilization)`, otherwise `(priority,
utilization)`; tuple comparison is lexicographic. -/
def pool_sort_le (geo : Bool) (preferred_region : Option String)
    (a b : PoolEndpoint) : Bool :=
  match preferred_region, geo with
  | some r, true =>
      if r = "" then
        decide (a.priority < b.priority ∨
          (a.priority = b.priority ∧
            utilization_ratio a ≤ utilization_ratio b))
      else
        let ga : Nat := if a.region = r then 0 else 1
        let gb : Nat := if b.region = r then 0 else 1
        decide (ga < gb ∨ (ga = gb ∧
          (a.priority < b.priority ∨
            (a.priority = b.priority ∧
              utilization_ratio a ≤ utilization_ratio b))))
  | _, _ =>
      decide (a.priority < b.priority ∨
        (a.priority = b.priority ∧ utilization_ratio a ≤ utilization_ratio b))

/-- One iteration of the `for name, pool in self.pools.items()` loop of
`_get_available_pools`: consult (and possibly mutate, via the open →
half-open transition) the circuit breaker, then apply the status, capacity
and queue-depth gates.  A registered pool always has a co-registered breaker
(`register_pool`); `self.circuit_breakers[name]` on a missing key would raise
`KeyError` in the source, which is unreachable, so the model defaults. -/
def _available_step (now : ℚ)
    (acc : List (String × CircuitBreaker) × List PoolEndpoint)
    (entry : String × PoolEndpoint) :
    List (String × CircuitBreaker) × List PoolEndpoint :=
  let breakers := acc.1
  let avail := acc.2
  let name := entry.1
  let pool := entry.2
  let cb := (alookup breakers name).getD CircuitBreaker.default_breaker
  let step := cb.can_execute now
  let breakers' := ainsert breakers name step.1
  if step.2 = false then (breakers', avail)
  else if ¬ (pool.status = .healthy ∨ pool.status = .degraded) then
    (breakers', avail)
  else if pool.max_sessions ≤ pool.current_sessions then (breakers', avail)
  else if 50 < pool.queue_depth then (breakers', avail)
  else (breakers', avail ++ [pool])

/-- `GlobalLoadBalancer._get_available_pools`: filter the registered pools
through the circuit-breaker / status / capacity / queue-depth gates, then
sort (stably, as `list.sort` does) by the priority/utilization key. -/
def _get_available_pools (lb : GlobalLoadBalancer) (now : ℚ)
    (preferred_region : Option String) :
    GlobalLoadBalancer × List PoolEndpoint :=
  let folded := lb.pools.foldl (_available_step now) (lb.circuit_breakers, [])
  let sorted :=
    folded.2.insertionSort
      (fun a b => pool_sort_le lb.enable_geo_routing preferred_region a b = true)
  ({ lb with circuit_breakers := folded.1 }, sorted)

/-- The score of `_select_weighted_pool`:
`available_capacity * weight * health_factor * response_factor` (the source
computes in binary floating point; the claims proved here do not depend on
rounding, so exact rationals stand in, with `0.7` as `7/10`). -/
def pool_score (pool : PoolEndpoint) : ℚ :=
  let utilization : ℚ :=
    if 0 < pool.max_sessions then utilization_ratio pool else 1
  let available_capacity := 1 - utilization
  let health_factor : ℚ := if pool.status = .degraded then 7 / 10 else 1
  let response_factor : ℚ :=
    if 0 < pool.response_time_ms then 1000 / (pool.response_time_ms + 1000)
    else 1
  available_capacity * (pool.weight : ℚ) * health_factor * response_factor

/-- The `(pool, score)` list of `_select_weighted_pool`. -/
def _scored (pools : List PoolEndpoint) : List (PoolEndpoint × ℚ) :=
  pools.map (fun p => (p, pool_score p))

/-- `scores.sort(key=lambda x: x[1], reverse=True)`: stable descending sort
by score. -/
def _sorted_scored (pools : List PoolEndpoint) : List (PoolEndpoint × ℚ) :=
  (_scored pools).insertionSort (fun a b => b.2 ≤ a.2)

/-- `top_pools = scores[:min(3, len(scores))]`. -/
def _top_pools (pools : List PoolEndpoint) : List (PoolEndpoint × ℚ) :=
  (_sorted_scored pools).take (min 3 (_sorted_scored pools).length)

/-- The `for pool, score in top_pools` cumulative walk: return the first pool
whose cumulative score reaches the uniform draw `r`. -/
def weighted_walk (r : ℚ) : ℚ → List (PoolEndpoint × ℚ) → Option PoolEndpoint
  | _, [] => none
  | cum, (p, s) :: rest =>
      let cum' := cum + s
      if r ≤ cum' then some p else weighted_walk r cum' rest

/-- `GlobalLoadBalancer._select_weighted_pool`: score, sort descending, keep
the top 3, then weighted-random selection proportional to score; a zero total
falls back to `random.choice` over the top pools, and the trailing
`return top_pools[-1][0]` catches a draw that exceeds every cumulative sum. -/
def _select_weighted_pool (pools : List PoolEndpoint) (oracle : RandomOracle) :
    Option PoolEndpoint :=
  if pools.isEmpty then none
  else
    let top := _top_pools pools
    let total_score := (top.map (fun s => s.2)).sum
    if total_score = 0 then
      let lst := top.map (fun s => s.1)
      lst[oracle.choice_index % lst.length]?
    else
      match weighted_walk oracle.uniform_draw 0 top with
      | some p => some p
      | none => (top.getLast?).map (fun s => s.1)

/-- `GlobalLoadBalancer.get_pool_for_session`, steps 2-5: candidate pools,
weighted selection, then persist the new affinity, bump the chosen pool
session count (the selected object aliases the registry entry, so the
returned pool carries the incremented count) and push metrics to Redis. -/
def _fresh_selection (lb : GlobalLoadBalancer) (now : ℚ)
    (session_id : String) (preferred_region : Option String)
    (oracle : RandomOracle) : GlobalLoadBalancer × Option PoolEndpoint :=
  let picked := _get_available_pools lb now preferred_region
  if picked.2.isEmpty then (picked.1, none)
  else
    match _select_weighted_pool picked.2 oracle with
    | none => (picked.1, none)
    | some selected =>
        let lb3 := _set_session_affinity picked.1 now session_id selected.name
        let updated :=
          { selected with current_sessions := selected.current_sessions + 1 }
        let lb4 := { lb3 with
          pools := ainsert lb3.pools selected.name updated
          redis_pools := ainsert lb3.redis_pools selected.name updated }
        (lb4, some updated)

/-- `GlobalLoadBalancer.get_pool_for_session`: resolve session affinity first
and return the bound pool when it is unexpired and healthy; otherwise fall
through to fresh weighted selection. -/
def get_pool_for_session (lb : GlobalLoadBalancer) (now : ℚ)
    (session_id : String) (preferred_region : Option String)
    (oracle : RandomOracle) : GlobalLoadBalancer × Option PoolEndpoint :=
  let resolved := _get_session_affinity lb now session_id
  let lb1 := resolved.1
  match resolved.2 with
  | some affinity =>
      if ¬ affinity.is_expired now then
        match alookup lb1.pools affinity.pool_name with
        | some pool =>
            if pool.status = .healthy then (lb1, some pool)
            else _fresh_selection lb1 now session_id preferred_region oracle
        | none => _fresh_selection lb1 now session_id preferred_region oracle
      else _fresh_selection lb1 now session_id preferred_region oracle
  | none => _fresh_selection lb1 now session_id preferred_region oracle

end GlobalLoadBalancer


/-- A one-pool load balancer whose pool is at capacity
(`max_sessions = 1 = current_sessions`), the state of end-to-end scenario D. -/
def lb_capacity_example : GlobalLoadBalancer where
  pools :=
    [("a",
      { name := "a"
        region := "us"
        url := "u"
        max_sessions := 1
        current_sessions := 1 })]
  circuit_breakers := [("a", {})]


/-! ## Python string and path primitives

`os.path.normpath`, `str.strip`, `str.lstrip` and the `in` substring test,
modelled character-for-character after CPython `posixpath`. -/

/-- The whitespace characters stripped by Python `str.strip()`. -/
def isPyWhitespace (c : Char) : Bool :=
  c = ' ' ∨ c = '\t' ∨ c = '\n' ∨ c = '\r' ∨ c = '\x0b' ∨ c = '\x0c'

/-- Python `str.strip()`: drop leading and trailing whitespace. -/
def pystrip (s : String) : String :=
  String.mk
    (((s.toList.dropWhile isPyWhitespace).reverse.dropWhile
      isPyWhitespace).reverse)

/-- Python `str.lstrip('/')`. -/
def lstripSlash (s : String) : String :=
  String.mk (s.toList.dropWhile (fun c => c = '/'))

/-- `sub.isPrefixOf` over every suffix of the list. -/
def containsSubAux (sub : List Char) : List Char → Bool
  | [] => sub.isEmpty
  | c :: rest => (sub.isPrefixOf (c :: rest)) ∨ containsSubAux sub rest

/-- Python `sub in s`: substring containment. -/
def containsSub (s sub : String) : Bool :=
  containsSubAux sub.toList s.toList

/-- Python `s.startswith(pre)` (structural, so that concrete instances
reduce in the kernel, unlike `String.startsWith`). -/
def pyStartsWith (s pre : String) : Bool :=
  pre.toList.isPrefixOf s.toList

/-- Python `s.endswith(suf)`. -/
def pyEndsWith (s suf : String) : Bool :=
  suf.toList.reverse.isPrefixOf s.toList.reverse

/-- Python `s.lower()` (ASCII; the paths and languages compared here are
ASCII). -/
def pylower (s : String) : String :=
  String.mk (s.toList.map Char.toLower)

/-- `l.split('/')` over characters. -/
def splitSlashAux (acc : List Char) : List Char → List String
  | [] => [String.mk acc.reverse]
  | c :: rest =>
      if c = '/' then String.mk acc.reverse :: splitSlashAux [] rest
      else splitSlashAux (c :: acc) rest

/-- Python `s.split('/')`. -/
def splitSlash (s : String) : List String :=
  splitSlashAux [] s.toList

/-- `'/'.join(parts)`. -/
def joinSlash : List String → String
  | [] => ""
  | [x] => x
  | x :: rest => x ++ "/" ++ joinSlash rest

/-- CPython `posixpath.normpath`: collapse separators and `.` segments and
resolve `..` against preceding segments where possible. -/
def normpath (path : String) : String :=
  if path = "" then "."
  else
    let initial_slashes : Nat :=
      if pyStartsWith path "/" then
        if pyStartsWith path "//" ∧ ¬ pyStartsWith path "///" then 2 else 1
      else 0
    let comps := splitSlash path
    let new_comps := comps.foldl
      (fun acc comp =>
        if comp = "" ∨ comp = "." then acc
        else if comp ≠ ".." ∨ (initial_slashes = 0 ∧ acc = []) ∨
            acc.getLast? = some ".." then
          acc ++ [comp]
        else if acc ≠ [] then acc.dropLast
        else acc)
      []
    let joined := joinSlash new_comps
    let prefixed := String.mk (List.replicate initial_slashes '/') ++ joined
    if prefixed = "" then "." else prefixed

/-- `pathlib.PurePosixPath(q).parts`: the root marker (for absolute paths)
followed by the non-empty, non-`.` segments. -/
def path_parts (q : String) : List String :=
  let segs := (splitSlash q).filter (fun c => decide (c ≠ "" ∧ c ≠ "."))
  if pyStartsWith q "/" then "/" :: segs else segs

/-- `str(pathlib.PurePosixPath(q))` for a relative `q`: the kept segments
joined by `/`, or `.` when none remain. -/
def path_str (q : String) : String :=
  let segs := (splitSlash q).filter (fun c => decide (c ≠ "" ∧ c ≠ "."))
  if segs = [] then "." else joinSlash segs

/-! ## Docker sandbox (`sandbox.py`, class `CodeSandbox`)

The Docker client becomes an in-memory container: a file map for
`/workspace` plus an observation log of every Docker API call made, so that
"no container interaction" is a provable frame property.  Wall-clock time is
abstracted: the oracle argument `duration` is how long the submitted command
would run, and the worker future times out exactly when it exceeds the
configured timeout. -/

inductive DockerCall where
  | put_archive (path : String)
  | get_archive (path : String)
  | exec_run (cmd : List String)
deriving DecidableEq, Repr

structure Container where
  files : List (String × String) := []
  calls : List DockerCall := []
deriving DecidableEq, Repr

inductive SandboxErr where
  | runtimeError (msg : String)
  | valueError (msg : String)
  | sandboxTimeout (msg : String)
deriving DecidableEq, Repr

/-- The decoded result of `container.exec_run` (stdout/stderr already decoded
with `errors=replace`, which never raises). -/
structure ExecResult where
  exit_code : Int
  stdout : String
  stderr : String
deriving DecidableEq, Repr

/-- The response dict of `CodeSandbox.run_code` (the wall-clock
`execution_time` field is not modelled). -/
structure RunResponse where
  status : String
  exit_code : Int
  stdout : String
  stderr : String
  error : Option String := none
  container_id : String
  language : String
deriving DecidableEq, Repr

structure CodeSandbox where
  image : String := "executor-sandbox:latest"
  timeout : Nat := 30
  memory_limit : String := "512m"
  cpu_quota : Nat := 100000
  network_disabled : Bool := true
  container : Option Container := none
  container_id : String := ""
deriving DecidableEq, Repr

namespace CodeSandbox

/-- `CodeSandbox.create`: provision the container (the success path; a
provisioning failure raises and is outside the claims proved here). -/
def create (sb : CodeSandbox) : CodeSandbox :=
  { sb with container := some {} }

/-- `CodeSandbox.destroy`: stop/remove is best-effort and swallowed; the
handle is always cleared, making `destroy` idempotent. -/
def destroy (sb : CodeSandbox) : CodeSandbox :=
  { sb with container := none }

/-- `CodeSandbox.write_file`: normalize the path, reject it (by returning
`False`, the caught `ValueError`) when the normalized form still contains
`..` as a substring or keeps a leading slash after `lstrip`, else tar the
content and `put_archive` it into `/workspace`. -/
def write_file (sb : CodeSandbox) (path content : String) :
    CodeSandbox × Except SandboxErr Bool :=
  match sb.container with
  | none => (sb, .error (.runtimeError "Sandbox not created"))
  | some c =>
      let safe_path := lstripSlash (normpath path)
      if containsSub safe_path ".." ∨ pyStartsWith safe_path "/" then
        (sb, .ok false)
      else
        let c' := { c with
          files := ainsert c.files safe_path content
          calls := c.calls ++ [.put_archive safe_path] }
        ({ sb with container := some c' }, .ok true)

/-- `CodeSandbox.read_file`: same ad-hoc path check (a rejected path returns
`None` with no Docker call); otherwise `get_archive` is attempted (logged)
and a missing file surfaces as `None` via the caught Docker error. -/
def read_file (sb : CodeSandbox) (path : String) :
    CodeSandbox × Except SandboxErr (Option String) :=
  match sb.container with
  | none => (sb, .error (.runtimeError "Sandbox not created"))
  | some c =>
      let safe_path := lstripSlash (normpath path)
      if containsSub safe_path ".." ∨ pyStartsWith safe_path "/" then
        (sb, .ok none)
      else
        let c' := { c with
          calls := c.calls ++ [.get_archive ("/workspace/" ++ safe_path)] }
        ({ sb with container := some c' }, .ok (alookup c.files safe_path))

/-- `CodeSandbox._prepare_execution`: the per-language launch command and
fixed source filename; an unrecognized language raises `ValueError`. -/
def _prepare_execution (language code : String) :
    Except SandboxErr (List String × String) :=
  let lang := pylower (pystrip language)
  if lang = "python" then .ok (["python", "main.py"], "main.py")
  else if lang = "node" ∨ lang = "javascript" ∨ lang = "js" then
    .ok (["node", "main.js"], "main.js")
  else if lang = "r" ∨ lang = "rscript" then .ok (["Rscript", "main.R"], "main.R")
  else if lang = "bash" ∨ lang = "sh" ∨ lang = "shell" then
    .ok (["sh", "main.sh"], "main.sh")
  else if lang = "go" then .ok (["sh", "-lc", "go run main.go"], "main.go")
  else if lang = "rust" ∨ lang = "rs" then
    .ok (["sh", "-lc", "rustc main.rs -O -o main && ./main"], "main.rs")
  else if lang = "java" then
    .ok (["sh", "-lc", "javac Main.java && java Main"], "Main.java")
  else if lang = "cpp" ∨ lang = "c++" then
    .ok (["sh", "-lc", "g++ main.cpp -O2 -o main && ./main"], "main.cpp")
  else .error (.valueError ("Unsupported language: " ++ language))

/-- `CodeSandbox._exec_run_with_timeout`: the command runs on a bounded
worker; if its duration exceeds the configured timeout the pending future is
cancelled, the container force-destroyed (clearing the handle) and
`SandboxTimeoutError` raised; otherwise the exec call completes and its
result is returned. -/
def _exec_run_with_timeout (sb : CodeSandbox) (cmd : List String)
    (duration : Nat) (res : ExecResult) :
    CodeSandbox × Except SandboxErr ExecResult :=
  match sb.container with
  | none => (sb, .error (.runtimeError "Sandbox not created"))
  | some c =>
      if sb.timeout < duration then
        (destroy sb, .error (.sandboxTimeout
          ("Execution exceeded timeout (" ++ toString sb.timeout ++ "s)")))
      else
        let c' := { c with calls := c.calls ++ [.exec_run cmd] }
        ({ sb with container := some c' }, .ok res)

/-- `CodeSandbox.run_code`: upload the optional files (the loop ignores
per-file failures), prepare the launch command (`ValueError` for an unknown
language propagates), write the source file (a failed write raises
`RuntimeError`, which the generic handler turns into an error response),
then execute under the hard timeout; `SandboxTimeoutError` is caught and
returned as an error response with `exit_code = -1`. -/
def run_code (sb : CodeSandbox) (code language : String)
    (files : List (String × String)) (duration : Nat) (res : ExecResult) :
    CodeSandbox × Except SandboxErr RunResponse :=
  match sb.container with
  | none =>
      (sb, .error (.runtimeError "Sandbox not created. Call create() first."))
  | some _ =>
      let sb1 := files.foldl (fun s kv => (write_file s kv.1 kv.2).1) sb
      match _prepare_execution language code with
      | .error e => (sb1, .error e)
      | .ok cmdsrc =>
          let w := write_file sb1 cmdsrc.2 code
          match w.2 with
          | .error e => (w.1, .error e)
          | .ok false =>
              (w.1, .ok
                { status := "error"
                  exit_code := -1
                  stdout := ""
                  stderr := "Failed to write source file: " ++ cmdsrc.2
                  error := some ("Failed to write source file: " ++ cmdsrc.2)
                  container_id := sb.container_id
                  language := language })
          | .ok true =>
              let er := _exec_run_with_timeout w.1 cmdsrc.1 duration res
              match er.2 with
              | .error (.sandboxTimeout msg) =>
                  (er.1, .ok
                    { status := "error"
                      exit_code := -1
                      stdout := ""
                      stderr := msg
                      error := some msg
                      container_id := sb.container_id
                      language := language })
              | .error e => (er.1, .error e)
              | .ok r =>
                  (er.1, .ok
                    { status := if r.exit_code = 0 then "success" else "error"
                      exit_code := r.exit_code
                      stdout := r.stdout
                      stderr := r.stderr
                      container_id := sb.container_id
                      language := language })

end CodeSandbox


/-! ## Secure path validation and the validated file API
(`filesystem.py`, classes `SecurePathValidator` and `FileSystemManager`)

`SecurePathValidator.validate` is a pure function of the path.  The
`resolve()` / `relative_to()` containment check cannot fail once traversal
segments and absolute paths have been rejected (symlinks are outside the
model), so it has no error branch here.  The `re` pattern `^[\\w\\-\\.]+$` is
modelled over ASCII word characters. -/

/-- A `\\w` word character (ASCII: letters, digits, underscore). -/
def is_word_char (c : Char) : Bool :=
  c.isAlphanum ∨ c = '_'

/-- `SAFE_FILENAME_PATTERN = ^[\\w\\-\\.]+$`. -/
def safe_filename (part : String) : Bool :=
  decide (part ≠ "") && part.toList.all (fun c => is_word_char c ∨ c = '-' ∨ c = '.')

/-- `DANGEROUS_EXTENSIONS`. -/
def dangerous_extensions : List String :=
  [".exe", ".dll", ".so", ".dylib", ".sh", ".bash", ".zsh", ".pyo", ".pyc"]

/-- `part.lower().endswith(ext)` over the deny-list. -/
def dangerous_extension (part : String) : Bool :=
  dangerous_extensions.any (fun ext => pyEndsWith (pylower part) ext)

/-- The `for part in target.parts` loop of `SecurePathValidator.validate`:
skip `.` and `..`, reject components failing the allow-list pattern, then
reject dangerous extensions. -/
def check_components : List String → Except String Unit
  | [] => .ok ()
  | part :: rest =>
      if part = "." ∨ part = ".." then check_components rest
      else if ¬ safe_filename part then
        .error ("Invalid characters in path component: " ++ part)
      else if dangerous_extension part then
        .error "Dangerous file extension not allowed"
      else check_components rest

/-- `SecurePathValidator.validate`: reject empty paths, null bytes,
traversal segments, absolute paths, and bad components; return the sanitized
relative path. -/
def validate (path : String) : Except String String :=
  if path = "" then .error "Empty path"
  else
    let p := pystrip path
    if p.toList.contains (Char.ofNat 0) then .error "Path contains null bytes"
    else
      let parts := path_parts p
      if parts.contains ".." then .error ("Path traversal detected: " ++ path)
      else if pyStartsWith p "/" then
        .error ("Absolute paths not allowed: " ++ path)
      else
        match check_components parts with
        | .error e => .error e
        | .ok _ => .ok (lstripSlash (path_str p))

/-- The result dict of the `FileSystemManager` operations. -/
structure FSResult where
  success : Bool
  path : Option String := none
  content : Option String := none
  size : Option Nat := none
  is_binary : Option Bool := none
  error : Option String := none
deriving DecidableEq, Repr

structure FileSystemManager where
  container : Container
  max_file_size : Nat := 10485760
  max_total_size : Nat := 104857600
  base_path : String := "/workspace"
deriving DecidableEq, Repr

namespace FileSystemManager

/-- `FileSystemManager.get_storage_usage`: runs `du -sb` in the container (an
`exec_run` call) and reports the bytes used — here the total size of the
stored files. -/
def get_storage_usage (m : FileSystemManager) : FileSystemManager × Nat :=
  let c' := { m.container with
    calls := m.container.calls ++ [.exec_run ["du", "-sb", m.base_path]] }
  ({ m with container := c' },
    (m.container.files.map (fun kv => kv.2.utf8ByteSize)).sum)

/-- `FileSystemManager.write_file`: validate (a `PathSecurityError` or
`FileSizeError` is caught and returned as a failure dict with no container
interaction), check the per-file size, check total storage (which runs `du`),
then tar and `put_archive` the content. -/
def write_file (m : FileSystemManager) (path content : String) :
    FileSystemManager × FSResult :=
  match validate path with
  | .error e => (m, { success := false, error := some e })
  | .ok safe_path =>
      if m.max_file_size < content.utf8ByteSize then
        (m, { success := false
              error := some ("File size " ++ toString content.utf8ByteSize
                ++ " exceeds limit " ++ toString m.max_file_size) })
      else
        let u := m.get_storage_usage
        if m.max_total_size < u.2 + content.utf8ByteSize then
          (u.1, { success := false
                  error := some ("Total storage would exceed limit "
                    ++ toString m.max_total_size) })
        else
          let c' := { u.1.container with
            files := ainsert u.1.container.files safe_path content
            calls := u.1.container.calls ++ [.put_archive safe_path] }
          ({ u.1 with container := c' },
            { success := true, path := some safe_path,
              size := some content.utf8ByteSize })

/-- `FileSystemManager.read_file`: validate (the `PathSecurityError` is
caught by the generic handler and wrapped as an internal error, with no
container interaction), `get_archive` the file (logged; a missing file
surfaces via the caught Docker error), enforce the size ceiling before
materializing, and classify text/binary (file contents are strings in the
model, so decoding succeeds). -/
def read_file (m : FileSystemManager) (path : String)
    (max_size : Option Nat) : FileSystemManager × FSResult :=
  let msize := max_size.getD m.max_file_size
  match validate path with
  | .error e =>
      (m, { success := false, error := some ("Internal error: " ++ e) })
  | .ok safe_path =>
      let full_path := m.base_path ++ "/" ++ safe_path
      let c' := { m.container with
        calls := m.container.calls ++ [.get_archive full_path] }
      let m' := { m with container := c' }
      match alookup m.container.files safe_path with
      | none =>
          (m', { success := false
                 error := some "Internal error: file not found" })
      | some content =>
          if msize < content.utf8ByteSize then
            (m', { success := false
                   error := some ("File size " ++ toString content.utf8ByteSize
                     ++ " exceeds limit " ++ toString msize) })
          else
            (m', { success := true, path := some safe_path,
                   content := some content,
                   size := some content.utf8ByteSize,
                   is_binary := some false })

end FileSystemManager

/-- The domain of spec claim C2, read component-wise as the validator source
does: the stripped path has a `..` traversal segment, is absolute, contains
a null byte, or has a component with a character outside the allow-list. -/
def claim_bad_path (p : String) : Prop :=
  (path_parts (pystrip p)).contains ".." = true ∨
  pyStartsWith (pystrip p) "/" = true ∨
  p.toList.contains (Char.ofNat 0) = true ∨
  ∃ part ∈ path_parts (pystrip p), safe_filename part = false


/-! ## Session manager (`session.py`, classes `Session` and `SessionManager`)

`time.time()` is the explicit `now`; the `uuid4` session id and the success
of Docker provisioning are oracle arguments.  The mutual-exclusion lock
serializes every operation, so each public method is one atomic state
transition here.  `Session.sandbox.destroy()` never raises (it swallows
errors internally), so `_destroy_session_unlocked` always removes the
registry entry; the ghost field `destroy_log` records the ids whose sandbox
has been destroyed, making destruction observable after removal. -/

structure Session where
  id : String
  sandbox : CodeSandbox
  template : String
  created_at : ℚ
  last_used : ℚ
  ttl : ℤ
  metadata : List (String × String) := []
  is_active : Bool := true
  use_count : Nat := 0
deriving DecidableEq, Repr

namespace Session

/-- `Session.idle_time`: seconds since last use. -/
def idle_time (s : Session) (now : ℚ) : ℚ :=
  now - s.last_used

/-- `Session.is_expired`: `idle_time > ttl`, strictly. -/
def is_expired (s : Session) (now : ℚ) : Bool :=
  decide ((s.ttl : ℚ) < s.idle_time now)

/-- `Session.touch`: update the last-used stamp and the use counter. -/
def touch (s : Session) (now : ℚ) : Session :=
  { s with last_used := now, use_count := s.use_count + 1 }

end Session

structure SMMetrics where
  sessions_created : Nat := 0
  sessions_reused : Nat := 0
  sessions_destroyed : Nat := 0
  sessions_expired : Nat := 0
  errors : Nat := 0
deriving DecidableEq, Repr

/-- The errors `create_session` can raise: the capacity `RuntimeError`
("Maximum session limit reached") — the spec taxonomy calls it
`CapacityError` — and a re-raised sandbox provisioning failure. -/
inductive SessionError where
  | capacityError (msg : String)
  | provisionError (msg : String)
deriving DecidableEq, Repr

structure SessionManager where
  default_ttl : ℤ := 300
  max_sessions : Nat := 10
  sessions : List (String × Session) := []
  metrics : SMMetrics := {}
  destroy_log : List String := []
deriving DecidableEq, Repr

namespace SessionManager

/-- `SessionManager._destroy_session_unlocked`: mark inactive, destroy the
sandbox (recorded in the ghost log), drop the registry entry; `false` when
the id is unknown (idempotence against double destroy). -/
def _destroy_session_unlocked (m : SessionManager) (sid : String) :
    SessionManager × Bool :=
  match alookup m.sessions sid with
  | none => (m, false)
  | some _ =>
      ({ m with
          sessions := aerase m.sessions sid
          metrics := { m.metrics with
            sessions_destroyed := m.metrics.sessions_destroyed + 1 }
          destroy_log := m.destroy_log ++ [sid] }, true)

/-- `SessionManager.destroy_session`. -/
def destroy_session (m : SessionManager) (sid : String) :
    SessionManager × Bool :=
  _destroy_session_unlocked m sid

/-- `SessionManager.get_session`: missing or inactive ids are not found; an
idle-expired session is destroyed as a side effect of the lookup and
reported as not found; otherwise the session is touched and returned. -/
def get_session (m : SessionManager) (now : ℚ) (sid : String) :
    SessionManager × Option Session :=
  match alookup m.sessions sid with
  | none => (m, none)
  | some s =>
      if s.is_active = false then (m, none)
      else if s.is_expired now then ((_destroy_session_unlocked m sid).1, none)
      else
        let s' := s.touch now
        ({ m with
            sessions := ainsert m.sessions sid s'
            metrics := { m.metrics with
              sessions_reused := m.metrics.sessions_reused + 1 } }, some s')

/-- `SessionManager._cleanup_expired`: destroy every idle-expired session
(each also counted in `sessions_expired`). -/
def _cleanup_expired (m : SessionManager) (now : ℚ) : SessionManager :=
  let expired_ids :=
    (m.sessions.filter (fun kv => kv.2.is_expired now)).map Prod.fst
  expired_ids.foldl
    (fun acc sid =>
      let d := _destroy_session_unlocked acc sid
      { d.1 with metrics := { d.1.metrics with
          sessions_expired := d.1.metrics.sessions_expired + 1 } })
    m

/-- `SessionManager.create_session`: under the lock, when the registry is at
`max_sessions` first sweep expired sessions; if still at capacity raise the
capacity `RuntimeError` (never queue); otherwise provision a sandbox
(`provision_ok` is the outcome of the Docker calls; a failure counts an
error and re-raises) and register the session under the fresh uuid-derived
id.  Python `ttl or self.default_ttl` treats a zero TTL as unset. -/
def create_session (m : SessionManager) (now : ℚ) (template : String)
    (ttl? : Option ℤ) (metadata : List (String × String)) (new_id : String)
    (provision_ok : Bool) : SessionManager × Except SessionError String :=
  let ttl := match ttl? with
    | some t => if t = 0 then m.default_ttl else t
    | none => m.default_ttl
  let m1 := if m.max_sessions ≤ m.sessions.length then _cleanup_expired m now
    else m
  if m.max_sessions ≤ m1.sessions.length then
    (m1, .error (.capacityError "Maximum session limit reached"))
  else if provision_ok = false then
    ({ m1 with metrics := { m1.metrics with
        errors := m1.metrics.errors + 1 } },
      .error (.provisionError "Failed to create session"))
  else
    let session : Session :=
      { id := new_id
        sandbox := { container := some {}, container_id := new_id }
        template := template
        created_at := now
        last_used := now
        ttl := ttl
        metadata := metadata }
    ({ m1 with
        sessions := ainsert m1.sessions new_id session
        metrics := { m1.metrics with
          sessions_created := m1.metrics.sessions_created + 1 } },
      .ok new_id)

end SessionManager

/-! ## Session persistence manager (`session_persistence.py`)

Redis becomes two in-memory tables: the scalar session records (stored via
`to_dict`, which excludes `files`) and the per-session file hashes.
Timestamps are the ISO strings the source stores; `datetime.utcnow()` is the
explicit `now_iso`. -/

structure SessionState where
  session_id : String
  pool_name : String
  pod_name : String
  template : String
  created_at : String
  last_activity : String
  expires_at : String
  files : List (String × String) := []
  environment : List (String × String) := []
  execution_history : List String := []
  installed_packages : List String := []
  metadata : List (String × String) := []
deriving DecidableEq, Repr

/-- One `key: value` item of the `updates` dict of `update_session`:
`setattr` for the attributes `SessionState` has, and a skipped unknown key
(the `hasattr` guard). -/
inductive FieldUpdate where
  | session_id (v : String)
  | pool_name (v : String)
  | pod_name (v : String)
  | template (v : String)
  | created_at (v : String)
  | last_activity (v : String)
  | expires_at (v : String)
  | files (v : List (String × String))
  | environment (v : List (String × String))
  | execution_history (v : List String)
  | installed_packages (v : List String)
  | metadata (v : List (String × String))
  | unknown_key (k v : String)
deriving Repr

/-- `setattr(state, key, value)` for known keys; unknown keys are skipped. -/
def apply_update (st : SessionState) (u : FieldUpdate) : SessionState :=
  match u with
  | .session_id v => { st with session_id := v }
  | .pool_name v => { st with pool_name := v }
  | .pod_name v => { st with pod_name := v }
  | .template v => { st with template := v }
  | .created_at v => { st with created_at := v }
  | .last_activity v => { st with last_activity := v }
  | .expires_at v => { st with expires_at := v }
  | .files v => { st with files := v }
  | .environment v => { st with environment := v }
  | .execution_history v => { st with execution_history := v }
  | .installed_packages v => { st with installed_packages := v }
  | .metadata v => { st with metadata := v }
  | .unknown_key _ _ => st

structure SessionPersistenceManager where
  compression_enabled : Bool := true
  max_file_size : Nat := 10485760
  _active_sessions : List (String × SessionState) := []
  redis_store : List (String × SessionState) := []
  redis_files : List (String × List (String × String)) := []
deriving Repr

namespace SessionPersistenceManager

/-- `SessionPersistenceManager._save_session`: serialize `to_dict` (files
excluded) under the `executor:session:<id>` key. -/
def _save_session (pm : SessionPersistenceManager) (st : SessionState) :
    SessionPersistenceManager :=
  { pm with redis_store :=
      ainsert pm.redis_store st.session_id { st with files := [] } }

/-- `SessionPersistenceManager._load_session`: the durable record, whose
`files` are empty by construction of `to_dict`/`from_dict`. -/
def _load_session (pm : SessionPersistenceManager) (sid : String) :
    Option SessionState :=
  alookup pm.redis_store sid

/-- `SessionPersistenceManager.get_session`: local cache first, then the
durable store. -/
def get_session (pm : SessionPersistenceManager) (sid : String) :
    Option SessionState :=
  match alookup pm._active_sessions sid with
  | some st => some st
  | none => _load_session pm sid

/-- `SessionPersistenceManager.update_session`: apply the field updates,
refresh `last_activity`, and write the result **only to the local cache**;
the durable record is untouched until a snapshot flush.  A missing session
returns `False` with no state change. -/
def update_session (pm : SessionPersistenceManager) (now_iso : String)
    (sid : String) (updates : List FieldUpdate) :
    SessionPersistenceManager × Bool :=
  match get_session pm sid with
  | none => (pm, false)
  | some st =>
      let st1 := updates.foldl apply_update st
      let st2 := { st1 with last_activity := now_iso }
      ({ pm with _active_sessions := ainsert pm._active_sessions sid st2 },
        true)

/-- `SessionPersistenceManager._save_all_sessions`: the snapshot-loop /
shutdown flush of every cached session to the durable store. -/
def _save_all_sessions (pm : SessionPersistenceManager) :
    SessionPersistenceManager :=
  pm._active_sessions.foldl (fun acc kv => _save_session acc kv.2) pm

end SessionPersistenceManager

/-!
# Theorems

Helper lemmas about the embedded definitions, followed by one theorem per
specification claim (with witnesses and counterexamples where applicable).
-/

namespace CircuitBreaker

theorem record_failure_failure_count (cb : CircuitBreaker) (t : ℚ) :
    (record_failure cb t).failure_count = cb.failure_count + 1 := by
  unfold record_failure
  dsimp only
  split_ifs <;> rfl

theorem record_failure_fields (cb : CircuitBreaker) (t : ℚ) :
    (record_failure cb t).failure_threshold = cb.failure_threshold ∧
    (record_failure cb t).recovery_timeout = cb.recovery_timeout ∧
    (record_failure cb t).half_open_max_calls = cb.half_open_max_calls ∧
    (record_failure cb t).last_failure_time = t := by
  unfold record_failure
  dsimp only
  split_ifs <;> exact ⟨rfl, rfl, rfl, rfl⟩

theorem record_failure_opens (cb : CircuitBreaker) (t : ℚ)
    (h : cb.failure_threshold ≤ cb.failure_count + 1) :
    (record_failure cb t).state = .open_ := by
  unfold record_failure
  by_cases hs : cb.state = CircuitState.half_open <;> simp [hs, h]

theorem record_success_half_open_step (cb : CircuitBreaker)
    (hs : cb.state = .half_open)
    (hlt : cb.success_count + 1 < cb.half_open_max_calls) :
    record_success cb = { cb with success_count := cb.success_count + 1 } := by
  unfold record_success
  simp [hs, Nat.not_le.mpr hlt]

theorem record_success_half_open_close (cb : CircuitBreaker)
    (hs : cb.state = .half_open)
    (hge : cb.half_open_max_calls ≤ cb.success_count + 1) :
    record_success cb =
      { cb with state := .closed, failure_count := 0, success_count := 0 } := by
  unfold record_success
  simp [hs, hge]

theorem can_execute_state_open (cb : CircuitBreaker) (now : ℚ)
    (hs : cb.state = .open_) :
    cb.can_execute now =
      if cb.recovery_timeout ≤ now - cb.last_failure_time then
        ({ cb with state := .half_open, success_count := 0 }, true)
      else (cb, false) := by
  unfold can_execute
  rw [hs]

end CircuitBreaker

theorem alookup_ainsert {β : Type} (l : List (String × β)) (k : String) (v : β) :
    alookup (ainsert l k v) k = some v := by
  induction l with
  | nil => simp [ainsert, alookup]
  | cons hd tl ih =>
      obtain ⟨k', v'⟩ := hd
      by_cases h : k' = k <;> simp [ainsert, alookup, h, ih]

theorem alookup_ainsert_ne {β : Type} (l : List (String × β)) (k k₀ : String)
    (v : β) (h : k ≠ k₀) : alookup (ainsert l k v) k₀ = alookup l k₀ := by
  induction l with
  | nil => simp [ainsert, alookup, h]
  | cons hd tl ih =>
      obtain ⟨k', v'⟩ := hd
      by_cases hk : k' = k
      · subst hk; simp [ainsert, alookup, h]
      · simp [ainsert, alookup, hk, ih]

theorem alookup_aerase {β : Type} (l : List (String × β)) (k : String)
    (hnd : (l.map Prod.fst).Nodup) : alookup (aerase l k) k = none := by
  induction l with
  | nil => simp [aerase, alookup]
  | cons hd tl ih =>
      obtain ⟨k', v'⟩ := hd
      simp only [List.map_cons, List.nodup_cons] at hnd
      by_cases h : k' = k
      · subst h
        simp only [aerase, if_pos rfl]
        -- k is not a key of tl, so lookup misses
        clear ih
        induction tl with
        | nil => simp [alookup]
        | cons hd₂ tl₂ ih₂ =>
            obtain ⟨k₂, v₂⟩ := hd₂
            simp only [List.map_cons, List.mem_cons, List.nodup_cons] at hnd
            have hk₂ : k₂ ≠ k' := fun he => hnd.1 (Or.inl he.symm)
            simp only [alookup, if_neg hk₂]
            exact ih₂ ⟨fun hm => hnd.1 (Or.inr hm), hnd.2.2⟩
      · simp [aerase, alookup, h, ih hnd.2]


open CircuitBreaker in
/-- C4: the circuit breaker follows the three-state machine.  With
`failure_threshold = 5`, five consecutive `record_failure` calls from
`closed` leave the breaker open (`cb5` names the resulting breaker);
`can_execute` is false while less than `recovery_timeout` has elapsed since
the last failure (hence immediately after), and becomes true once
`recovery_timeout` has elapsed, transitioning to half-open as a side effect;
with `half_open_max_calls = 3`, three consecutive `record_success` calls in
half-open close the breaker with both counters reset; in closed a success
decays the failure counter toward zero; a failure in half-open immediately
re-opens. -/
theorem C4_circuit_breaker_three_state_machine
    (cb cb5 : CircuitBreaker)
    (hth : cb.failure_threshold = 5)
    (hmax : cb.half_open_max_calls = 3)
    (hclosed : cb.state = .closed)
    (t1 t2 t3 t4 t5 : ℚ)
    (hcb5 : cb5 = record_failure (record_failure (record_failure
      (record_failure (record_failure cb t1) t2) t3) t4) t5) :
    cb5.state = .open_ ∧
    cb5.last_failure_time = t5 ∧
    (∀ now : ℚ, now - t5 < cb.recovery_timeout →
      (cb5.can_execute now).2 = false) ∧
    (∀ now : ℚ, cb.recovery_timeout ≤ now - t5 →
      (cb5.can_execute now).2 = true ∧
      (cb5.can_execute now).1.state = .half_open ∧
      record_success (record_success (record_success (cb5.can_execute now).1)) =
        { cb5 with state := .closed, failure_count := 0, success_count := 0 }) ∧
    (record_success cb).failure_count = cb.failure_count - 1 ∧
    (∀ h : CircuitBreaker, h.state = .half_open → ∀ t : ℚ,
      (record_failure h t).state = .open_) := by
  obtain ⟨c1, hc1⟩ : ∃ c, c = record_failure cb t1 := ⟨_, rfl⟩
  obtain ⟨c2, hc2⟩ : ∃ c, c = record_failure c1 t2 := ⟨_, rfl⟩
  obtain ⟨c3, hc3⟩ : ∃ c, c = record_failure c2 t3 := ⟨_, rfl⟩
  obtain ⟨c4, hc4⟩ : ∃ c, c = record_failure c3 t4 := ⟨_, rfl⟩
  rw [← hc1] at hcb5
  rw [← hc2] at hcb5
  rw [← hc3] at hcb5
  rw [← hc4] at hcb5
  have hthr4 : c4.failure_threshold = 5 := by
    rw [hc4, (record_failure_fields c3 t4).1, hc3, (record_failure_fields c2 t3).1,
      hc2, (record_failure_fields c1 t2).1, hc1, (record_failure_fields cb t1).1, hth]
  have hfc4 : c4.failure_count = cb.failure_count + 4 := by
    rw [hc4, record_failure_failure_count, hc3, record_failure_failure_count,
      hc2, record_failure_failure_count, hc1, record_failure_failure_count]
  have hmax5 : cb5.half_open_max_calls = 3 := by
    rw [hcb5, (record_failure_fields c4 t5).2.2.1, hc4,
      (record_failure_fields c3 t4).2.2.1, hc3, (record_failure_fields c2 t3).2.2.1,
      hc2, (record_failure_fields c1 t2).2.2.1, hc1,
      (record_failure_fields cb t1).2.2.1, hmax]
  have hrt5 : cb5.recovery_timeout = cb.recovery_timeout := by
    rw [hcb5, (record_failure_fields c4 t5).2.1, hc4,
      (record_failure_fields c3 t4).2.1, hc3, (record_failure_fields c2 t3).2.1,
      hc2, (record_failure_fields c1 t2).2.1, hc1,
      (record_failure_fields cb t1).2.1]
  have hlast5 : cb5.last_failure_time = t5 := by
    rw [hcb5]
    exact (record_failure_fields c4 t5).2.2.2
  have hstate5 : cb5.state = .open_ := by
    rw [hcb5]
    exact record_failure_opens c4 t5 (by rw [hthr4, hfc4]; omega)
  refine ⟨hstate5, hlast5, ?_, ?_, ?_, ?_⟩
  · intro now hlt
    rw [can_execute_state_open cb5 now hstate5,
      if_neg (by rw [hrt5, hlast5]; exact not_le.mpr hlt)]
  · intro now hge
    have hcan : cb5.can_execute now =
        ({ cb5 with state := .half_open, success_count := 0 }, true) := by
      rw [can_execute_state_open cb5 now hstate5,
        if_pos (by rw [hrt5, hlast5]; exact hge)]
    rw [hcan]
    refine ⟨rfl, rfl, ?_⟩
    have e1 := record_success_half_open_step
      { cb5 with state := .half_open, success_count := 0 } rfl
      (by simp [hmax5])
    have e2 := record_success_half_open_step
      { cb5 with state := .half_open, success_count := 0 + 1 } rfl
      (by simp [hmax5])
    have e3 := record_success_half_open_close
      { cb5 with state := .half_open, success_count := 0 + 1 + 1 } rfl
      (by simp [hmax5])
    rw [e1, e2, e3]
  · simp [record_success, hclosed]
  · intro h hs t
    simp [record_failure, hs]

open CircuitBreaker in
/-- Witness for C4 at the default breaker and failure times 1..5. -/
theorem C4_circuit_breaker_three_state_machine_witness :
    default_breaker.failure_threshold = 5 ∧
    default_breaker.half_open_max_calls = 3 ∧
    default_breaker.state = .closed ∧
    ({ failure_threshold := 5, recovery_timeout := 30, half_open_max_calls := 3,
       state := .open_, failure_count := 5, success_count := 0,
       last_failure_time := 5 } : CircuitBreaker) =
      record_failure (record_failure (record_failure (record_failure
        (record_failure default_breaker 1) 2) 3) 4) 5 ∧
    (({ failure_threshold := 5, recovery_timeout := 30, half_open_max_calls := 3,
        state := .open_, failure_count := 5, success_count := 0,
        last_failure_time := 5 } : CircuitBreaker).state = .open_ ∧
     ({ failure_threshold := 5, recovery_timeout := 30, half_open_max_calls := 3,
        state := .open_, failure_count := 5, success_count := 0,
        last_failure_time := 5 } : CircuitBreaker).last_failure_time = 5 ∧
     (∀ now : ℚ, now - 5 < default_breaker.recovery_timeout →
       (({ failure_threshold := 5, recovery_timeout := 30, half_open_max_calls := 3,
           state := .open_, failure_count := 5, success_count := 0,
           last_failure_time := 5 } : CircuitBreaker).can_execute now).2 = false) ∧
     (∀ now : ℚ, default_breaker.recovery_timeout ≤ now - 5 →
       (({ failure_threshold := 5, recovery_timeout := 30, half_open_max_calls := 3,
           state := .open_, failure_count := 5, success_count := 0,
           last_failure_time := 5 } : CircuitBreaker).can_execute now).2 = true ∧
       (({ failure_threshold := 5, recovery_timeout := 30, half_open_max_calls := 3,
           state := .open_, failure_count := 5, success_count := 0,
           last_failure_time := 5 } : CircuitBreaker).can_execute now).1.state
           = .half_open ∧
       record_success (record_success (record_success
         (({ failure_threshold := 5, recovery_timeout := 30,
             half_open_max_calls := 3, state := .open_, failure_count := 5,
             success_count := 0,
             last_failure_time := 5 } : CircuitBreaker).can_execute now).1)) =
         { ({ failure_threshold := 5, recovery_timeout := 30,
              half_open_max_calls := 3, state := .open_, failure_count := 5,
              success_count := 0,
              last_failure_time := 5 } : CircuitBreaker) with
           state := .closed, failure_count := 0, success_count := 0 }) ∧
     (record_success default_breaker).failure_count =
       default_breaker.failure_count - 1 ∧
     (∀ h : CircuitBreaker, h.state = .half_open → ∀ t : ℚ,
       (record_failure h t).state = .open_)) :=
  ⟨rfl, rfl, rfl, by decide,
    C4_circuit_breaker_three_state_machine default_breaker _ rfl rfl rfl
      1 2 3 4 5 (by decide)⟩


namespace GlobalLoadBalancer

theorem _get_session_affinity_pools (lb : GlobalLoadBalancer) (now : ℚ)
    (sid : String) :
    ((lb._get_session_affinity now sid).1.pools = lb.pools) ∧
    ((lb._get_session_affinity now sid).1.circuit_breakers
      = lb.circuit_breakers) := by
  unfold _get_session_affinity
  cases h1 : alookup lb.session_affinities sid <;> dsimp only
  all_goals try split_ifs
  all_goals try (cases h2 : alookup lb.redis_affinities sid <;> dsimp only)
  all_goals try split_ifs
  all_goals exact ⟨rfl, rfl⟩

theorem _get_session_affinity_not_expired (lb : GlobalLoadBalancer) (now : ℚ)
    (sid : String) (a : SessionAffinity)
    (h : (lb._get_session_affinity now sid).2 = some a) :
    a.is_expired now = false := by
  unfold _get_session_affinity at h
  cases h1 : alookup lb.session_affinities sid <;> rw [h1] at h <;> dsimp only at h
  all_goals try split_ifs at h with he
  all_goals try (cases h2 : alookup lb.redis_affinities sid <;>
    rw [h2] at h <;> dsimp only at h)
  all_goals try split_ifs at h with he2
  all_goals first
    | (cases h; simpa using he)
    | (cases h; simpa using he2)
    | cases h

end GlobalLoadBalancer

open GlobalLoadBalancer in
/-- C5: once session id `S` resolves to an (unexpired) affinity binding for
pool `P` and `P` is healthy, `get_pool_for_session` returns `P` — regardless
of the PRNG draws and the preferred region, i.e. even if `P` would not win a
fresh weighted selection; and any affinity the resolution step yields is
necessarily unexpired, so the binding stops short-circuiting selection
exactly when it has expired (resolution drops it) or its pool is no longer
healthy (the status gate fails). -/
theorem C5_session_affinity_sticky (lb : GlobalLoadBalancer) (now : ℚ)
    (S : String) (a : SessionAffinity) (P : PoolEndpoint)
    (preferred_region : Option String) (oracle : RandomOracle)
    (ha : (lb._get_session_affinity now S).2 = some a)
    (hp : alookup lb.pools a.pool_name = some P)
    (hhealthy : P.status = .healthy) :
    (lb.get_pool_for_session now S preferred_region oracle).2 = some P ∧
    a.is_expired now = false := by
  have hne := _get_session_affinity_not_expired lb now S a ha
  refine ⟨?_, hne⟩
  unfold get_pool_for_session
  dsimp only
  rw [ha]
  dsimp only
  have hpools := (_get_session_affinity_pools lb now S).1
  rw [hne, hpools, hp]
  simp [hhealthy]

open GlobalLoadBalancer in
/-- Witness for C5: one healthy pool, one cached affinity binding to it. -/
theorem C5_session_affinity_sticky_witness :
    (((GlobalLoadBalancer.mk false
        [("a", { name := "a", region := "us", url := "u" })]
        [("a", {})]
        [("s1", { session_id := "s1", pool_name := "a", created_at := 0 })]
        [] [])._get_session_affinity 10 "s1").2 =
      some { session_id := "s1", pool_name := "a", created_at := 0 } ∧
     alookup (GlobalLoadBalancer.mk false
        [("a", { name := "a", region := "us", url := "u" })]
        [("a", {})]
        [("s1", { session_id := "s1", pool_name := "a", created_at := 0 })]
        [] []).pools "a" =
      some { name := "a", region := "us", url := "u" } ∧
     ({ name := "a", region := "us", url := "u" } : PoolEndpoint).status
        = .healthy) ∧
    (((GlobalLoadBalancer.mk false
        [("a", { name := "a", region := "us", url := "u" })]
        [("a", {})]
        [("s1", { session_id := "s1", pool_name := "a", created_at := 0 })]
        [] []).get_pool_for_session 10 "s1" none ⟨0, 0⟩).2 =
      some { name := "a", region := "us", url := "u" } ∧
     SessionAffinity.is_expired
       { session_id := "s1", pool_name := "a", created_at := 0 } 10 = false) :=
  ⟨⟨by norm_num [GlobalLoadBalancer._get_session_affinity, alookup,
        SessionAffinity.is_expired],
    by norm_num [alookup], rfl⟩,
    C5_session_affinity_sticky _ 10 "s1" _ _ none ⟨0, 0⟩
      (by norm_num [GlobalLoadBalancer._get_session_affinity, alookup,
        SessionAffinity.is_expired])
      (by norm_num [alookup]) rfl⟩


namespace GlobalLoadBalancer

theorem _available_step_eq (now : ℚ) (b : List (String × CircuitBreaker))
    (acc : List PoolEndpoint) (n₀ : String) (p₀ : PoolEndpoint) :
    _available_step now (b, acc) (n₀, p₀) =
      (ainsert b n₀
        (((alookup b n₀).getD CircuitBreaker.default_breaker).can_execute now).1,
       if (((alookup b n₀).getD
              CircuitBreaker.default_breaker).can_execute now).2 = true ∧
          (p₀.status = .healthy ∨ p₀.status = .degraded) ∧
          p₀.current_sessions < p₀.max_sessions ∧ p₀.queue_depth ≤ 50
       then acc ++ [p₀] else acc) := by
  unfold _available_step
  dsimp only
  by_cases h1 : (((alookup b n₀).getD
      CircuitBreaker.default_breaker).can_execute now).2 = false
  · rw [if_pos h1, if_neg]
    rintro ⟨hc, -⟩
    rw [hc] at h1
    cases h1
  · rw [if_neg h1]
    have h1t : (((alookup b n₀).getD
        CircuitBreaker.default_breaker).can_execute now).2 = true :=
      Bool.not_eq_false _ ▸ (by simpa using h1)
    by_cases h2 : ¬ (p₀.status = .healthy ∨ p₀.status = .degraded)
    · rw [if_pos h2, if_neg]
      rintro ⟨-, hs, -⟩
      exact h2 hs
    · rw [if_neg h2]
      push_neg at h2
      by_cases h3 : p₀.max_sessions ≤ p₀.current_sessions
      · rw [if_pos h3, if_neg]
        rintro ⟨-, -, hc, -⟩
        omega
      · rw [if_neg h3]
        by_cases h4 : 50 < p₀.queue_depth
        · rw [if_pos h4, if_neg]
          rintro ⟨-, -, -, hq⟩
          omega
        · rw [if_neg h4, if_pos]
          exact ⟨h1t, h2, by omega, by omega⟩

theorem mem_available_foldl (now : ℚ) (pools : List (String × PoolEndpoint)) :
    ∀ (b : List (String × CircuitBreaker)) (acc : List PoolEndpoint),
      (pools.map Prod.fst).Nodup →
      ∀ q : PoolEndpoint,
        (q ∈ (pools.foldl (_available_step now) (b, acc)).2 ↔
          q ∈ acc ∨ ∃ n, (n, q) ∈ pools ∧
            (((alookup b n).getD
                CircuitBreaker.default_breaker).can_execute now).2 = true ∧
            (q.status = .healthy ∨ q.status = .degraded) ∧
            q.current_sessions < q.max_sessions ∧
            q.queue_depth ≤ 50) := by
  induction pools with
  | nil => intro b acc _ q; simp
  | cons e rest ih =>
      intro b acc hnd q
      obtain ⟨n₀, p₀⟩ := e
      simp only [List.map_cons, List.nodup_cons] at hnd
      obtain ⟨hn₀, hrest⟩ := hnd
      simp only [List.foldl_cons, _available_step_eq]
      rw [ih _ _ hrest q]
      constructor
      · rintro (hacc | ⟨n, hmem, hcond⟩)
        · split_ifs at hacc with hC
          · rcases List.mem_append.mp hacc with h | h
            · exact Or.inl h
            · obtain hq : q = p₀ := List.mem_singleton.mp h
              subst hq
              exact Or.inr ⟨n₀, List.mem_cons_self _ _, hC⟩
          · exact Or.inl hacc
        · refine Or.inr ⟨n, List.mem_cons_of_mem _ hmem, ?_⟩
          have hne : n₀ ≠ n := by
            intro he
            exact hn₀ (he ▸ List.mem_map_of_mem Prod.fst hmem)
          rwa [alookup_ainsert_ne b n₀ n _ hne] at hcond
      · rintro (hacc | ⟨n, hmem, hcond⟩)
        · left
          split_ifs <;> simp [hacc]
        · rcases List.mem_cons.mp hmem with he | hmem2
          · injection he with he1 he2
            subst he1
            subst he2
            left
            rw [if_pos hcond]
            simp
          · right
            refine ⟨n, hmem2, ?_⟩
            have hne : n₀ ≠ n := by
              intro he
              exact hn₀ (he ▸ List.mem_map_of_mem Prod.fst hmem2)
            rwa [alookup_ainsert_ne b n₀ n _ hne]

theorem mem_available_pools (lb : GlobalLoadBalancer) (now : ℚ)
    (pr : Option String) (hnd : (lb.pools.map Prod.fst).Nodup)
    (q : PoolEndpoint) :
    q ∈ (lb._get_available_pools now pr).2 ↔
      ∃ n, (n, q) ∈ lb.pools ∧
        (((alookup lb.circuit_breakers n).getD
            CircuitBreaker.default_breaker).can_execute now).2 = true ∧
        (q.status = .healthy ∨ q.status = .degraded) ∧
        q.current_sessions < q.max_sessions ∧
        q.queue_depth ≤ 50 := by
  unfold _get_available_pools
  dsimp only
  rw [(List.perm_insertionSort _ _).mem_iff, mem_available_foldl now lb.pools
    lb.circuit_breakers [] hnd q]
  simp

end GlobalLoadBalancer


namespace GlobalLoadBalancer

theorem _get_session_affinity_geo (lb : GlobalLoadBalancer) (now : ℚ)
    (sid : String) :
    (lb._get_session_affinity now sid).1.enable_geo_routing
      = lb.enable_geo_routing := by
  unfold _get_session_affinity
  cases h1 : alookup lb.session_affinities sid <;> dsimp only
  all_goals try split_ifs
  all_goals try (cases h2 : alookup lb.redis_affinities sid <;> dsimp only)
  all_goals try split_ifs
  all_goals rfl

theorem _get_available_pools_congr (lb lb2 : GlobalLoadBalancer) (now : ℚ)
    (pr : Option String) (hp : lb.pools = lb2.pools)
    (hb : lb.circuit_breakers = lb2.circuit_breakers)
    (hg : lb.enable_geo_routing = lb2.enable_geo_routing) :
    (lb._get_available_pools now pr).2 = (lb2._get_available_pools now pr).2 := by
  unfold _get_available_pools
  rw [hp, hb, hg]

theorem weighted_walk_mem (r : ℚ) (l : List (PoolEndpoint × ℚ))
    (p : PoolEndpoint) :
    ∀ cum : ℚ, weighted_walk r cum l = some p → p ∈ l.map Prod.fst := by
  induction l with
  | nil => intro cum h; cases h
  | cons e rest ih =>
      intro cum h
      obtain ⟨q, sc⟩ := e
      unfold weighted_walk at h
      dsimp only at h
      split_ifs at h with hle
      · injection h with h
        subst h
        exact List.mem_cons_self _ _
      · exact List.mem_cons_of_mem _ (ih _ h)

theorem _top_pools_subset (pools : List PoolEndpoint) (p : PoolEndpoint)
    (s : ℚ) (h : (p, s) ∈ _top_pools pools) : p ∈ pools := by
  unfold _top_pools at h
  have h2 : (p, s) ∈ _sorted_scored pools := List.take_subset _ _ h
  have h3 : (p, s) ∈ _scored pools :=
    (List.perm_insertionSort _ _).mem_iff.mp h2
  unfold _scored at h3
  obtain ⟨q, hq, he⟩ := List.mem_map.mp h3
  injection he with he1 he2
  exact he1 ▸ hq

theorem _select_weighted_pool_mem (pools : List PoolEndpoint)
    (oracle : RandomOracle) (p : PoolEndpoint)
    (h : _select_weighted_pool pools oracle = some p) : p ∈ pools := by
  unfold _select_weighted_pool at h
  by_cases hemp : pools.isEmpty
  · rw [if_pos hemp] at h
    cases h
  · rw [if_neg hemp] at h
    dsimp only at h
    by_cases htot : (List.map (fun s => s.2) (_top_pools pools)).sum = 0
    · -- zero-total branch: random.choice over the top pools
      rw [if_pos htot] at h
      have hmem := List.getElem?_mem h
      obtain ⟨⟨q, sc⟩, hq, he⟩ := List.mem_map.mp hmem
      exact he ▸ _top_pools_subset pools q sc hq
    · -- cumulative walk, with the last pool as fallback
      rw [if_neg htot] at h
      cases hw : weighted_walk oracle.uniform_draw 0 (_top_pools pools) with
      | some q =>
          rw [hw] at h
          injection h with h
          subst h
          obtain ⟨⟨q2, sc⟩, hq2, he⟩ :=
            List.mem_map.mp (weighted_walk_mem _ _ _ _ hw)
          exact he ▸ _top_pools_subset pools q2 sc hq2
      | none =>
          rw [hw] at h
          cases hl : (_top_pools pools).getLast? with
          | none => rw [hl] at h; cases h
          | some e =>
              rw [hl] at h
              injection h with h
              obtain ⟨q2, sc⟩ := e
              subst h
              exact _top_pools_subset pools q2 sc
                (List.mem_of_mem_getLast? (by rw [hl]; rfl))

end GlobalLoadBalancer


namespace GlobalLoadBalancer

theorem get_pool_for_session_no_affinity (lb : GlobalLoadBalancer) (now : ℚ)
    (sid : String) (pr : Option String) (oracle : RandomOracle)
    (haff : (lb._get_session_affinity now sid).2 = none) :
    lb.get_pool_for_session now sid pr oracle =
      (lb._get_session_affinity now sid).1._fresh_selection now sid pr oracle := by
  unfold get_pool_for_session
  dsimp only
  rw [haff]

theorem _top_pools_ne_nil (pools : List PoolEndpoint) (hne : pools ≠ []) :
    _top_pools pools ≠ [] := by
  unfold _top_pools
  intro h
  have hlen := congrArg List.length h
  rw [List.length_take, List.length_nil] at hlen
  have hs : (_sorted_scored pools).length = pools.length := by
    unfold _sorted_scored
    rw [(List.perm_insertionSort _ _).length_eq]
    unfold _scored
    rw [List.length_map]
  rw [hs] at hlen
  have : pools.length ≠ 0 := fun h0 => hne (List.length_eq_zero.mp h0)
  omega

end GlobalLoadBalancer

open GlobalLoadBalancer in
/-- C8 as stated is false on the queue-depth boundary: `_get_available_pools`
skips a pool only when `queue_depth > 50`, so a healthy pool with
`queue_depth = 50` — not below 50 — is a candidate. -/
theorem C8_queue_depth_50_counterexample :
    ((GlobalLoadBalancer.mk false
        [("q", { name := "q", region := "us", url := "u", queue_depth := 50 })]
        [("q", {})] [] [] [])._get_available_pools 1 none).2 =
      [{ name := "q", region := "us", url := "u", queue_depth := 50 }] ∧
    ¬ (({ name := "q", region := "us", url := "u", queue_depth := 50 } :
        PoolEndpoint).queue_depth < 50) := by
  constructor
  · decide
  · decide

open GlobalLoadBalancer in
/-- C8 amended: when no affinity applies, `get_pool_for_session` considers
exactly the pools whose circuit breaker admits requests, whose status is
healthy or degraded, whose `current_sessions < max_sessions`, and whose queue
depth is **at most** 50 (the source skips only `queue_depth > 50`); an empty
candidate set yields `None` (the embedding is a total function, so no
exception is possible); and any selected pool comes from the candidate set
(with its session count incremented), so a pool at capacity is never
selected. -/
theorem C8_candidate_set_amended (lb : GlobalLoadBalancer) (now : ℚ)
    (pr : Option String) (sid : String) (oracle : RandomOracle)
    (hnd : (lb.pools.map Prod.fst).Nodup) :
    (∀ q : PoolEndpoint,
      q ∈ (lb._get_available_pools now pr).2 ↔
        ∃ n, (n, q) ∈ lb.pools ∧
          (((alookup lb.circuit_breakers n).getD
              CircuitBreaker.default_breaker).can_execute now).2 = true ∧
          (q.status = .healthy ∨ q.status = .degraded) ∧
          q.current_sessions < q.max_sessions ∧
          q.queue_depth ≤ 50) ∧
    ((lb._get_session_affinity now sid).2 = none →
      ((lb._get_available_pools now pr).2 = [] →
        (lb.get_pool_for_session now sid pr oracle).2 = none) ∧
      (∀ p : PoolEndpoint,
        (lb.get_pool_for_session now sid pr oracle).2 = some p →
        ∃ q, q ∈ (lb._get_available_pools now pr).2 ∧
          p = { q with current_sessions := q.current_sessions + 1 })) := by
  have hfields := _get_session_affinity_pools lb now sid
  have hgeo := _get_session_affinity_geo lb now sid
  have hcongr := _get_available_pools_congr
    (lb._get_session_affinity now sid).1 lb now pr hfields.1 hfields.2 hgeo
  refine ⟨fun q => mem_available_pools lb now pr hnd q, fun haff => ⟨?_, ?_⟩⟩
  · intro hempty
    rw [get_pool_for_session_no_affinity lb now sid pr oracle haff]
    unfold _fresh_selection
    dsimp only
    rw [hcongr, hempty]
    rfl
  · intro p hp
    rw [get_pool_for_session_no_affinity lb now sid pr oracle haff] at hp
    unfold _fresh_selection at hp
    dsimp only at hp
    rw [hcongr] at hp
    by_cases hemp : (lb._get_available_pools now pr).2.isEmpty
    · rw [if_pos hemp] at hp
      cases hp
    · rw [if_neg hemp] at hp
      cases hsel : _select_weighted_pool (lb._get_available_pools now pr).2
          oracle with
      | none => rw [hsel] at hp; cases hp
      | some selected =>
          rw [hsel] at hp
          dsimp only at hp
          injection hp with hp
          exact ⟨selected,
            _select_weighted_pool_mem _ oracle selected hsel, hp.symm⟩

open GlobalLoadBalancer in
/-- Witness for C8 amended: a single pool at capacity
(`max_sessions = 1 = current_sessions`, scenario D): the candidate set is
empty and the call returns no pool. -/
theorem C8_candidate_set_amended_witness :
    (lb_capacity_example.pools.map Prod.fst).Nodup ∧
    ((∀ q : PoolEndpoint,
      q ∈ (lb_capacity_example._get_available_pools 2 none).2 ↔
        ∃ n, (n, q) ∈ lb_capacity_example.pools ∧
          (((alookup lb_capacity_example.circuit_breakers n).getD
              CircuitBreaker.default_breaker).can_execute 2).2 = true ∧
          (q.status = .healthy ∨ q.status = .degraded) ∧
          q.current_sessions < q.max_sessions ∧
          q.queue_depth ≤ 50) ∧
    ((lb_capacity_example._get_session_affinity 2 "s2").2 = none →
      ((lb_capacity_example._get_available_pools 2 none).2 = [] →
        (lb_capacity_example.get_pool_for_session 2 "s2" none ⟨0, 0⟩).2
          = none) ∧
      (∀ p : PoolEndpoint,
        (lb_capacity_example.get_pool_for_session 2 "s2" none ⟨0, 0⟩).2
          = some p →
        ∃ q, q ∈ (lb_capacity_example._get_available_pools 2 none).2 ∧
          p = { q with current_sessions := q.current_sessions + 1 }))) :=
  ⟨by simp [lb_capacity_example],
    C8_candidate_set_amended lb_capacity_example 2 none "s2" ⟨0, 0⟩
      (by simp [lb_capacity_example])⟩


open GlobalLoadBalancer in
/-- C9: for a non-empty candidate list, weighted selection restricts to the
top 3 pools by score and always returns some pool from that top-3 set (there
is no division anywhere in the selection, so in particular no division by
zero); when the total top-3 score is zero it is exactly the uniform
`random.choice` over the top pools; and the selection is a function of the
pool list and the PRNG draws alone, hence deterministic for a fixed seed and
fixed scores. -/
theorem C9_weighted_selection_total_and_deterministic
    (pools : List PoolEndpoint) (oracle : RandomOracle) (hne : pools ≠ []) :
    (∃ p, _select_weighted_pool pools oracle = some p ∧
      p ∈ (_top_pools pools).map (fun s => s.1) ∧ p ∈ pools) ∧
    (((_top_pools pools).map (fun s => s.2)).sum = 0 →
      _select_weighted_pool pools oracle =
        ((_top_pools pools).map (fun s => s.1))[oracle.choice_index %
          ((_top_pools pools).map (fun s => s.1)).length]?) ∧
    (∀ (pools2 : List PoolEndpoint) (oracle2 : RandomOracle),
      pools = pools2 → oracle = oracle2 →
      _select_weighted_pool pools oracle
        = _select_weighted_pool pools2 oracle2) := by
  have hemp : pools.isEmpty = false := by
    cases pools with
    | nil => exact absurd rfl hne
    | cons a l => rfl
  have htopne := _top_pools_ne_nil pools hne
  refine ⟨?_, ?_, ?_⟩
  · -- totality and top-3 membership
    unfold _select_weighted_pool
    rw [if_neg (by rw [hemp]; exact Bool.false_ne_true)]
    dsimp only
    by_cases htot : ((_top_pools pools).map (fun s => s.2)).sum = 0
    · rw [if_pos htot]
      have hlen : 0 < ((_top_pools pools).map (fun s => s.1)).length := by
        rw [List.length_map]
        exact List.length_pos.mpr htopne
      have hidx := Nat.mod_lt oracle.choice_index hlen
      have hp := List.getElem?_eq_getElem hidx
      refine ⟨_, hp, List.getElem?_mem hp, ?_⟩
      obtain ⟨⟨q, sc⟩, hq, he⟩ := List.mem_map.mp (List.getElem?_mem hp)
      exact he ▸ _top_pools_subset pools q sc hq
    · rw [if_neg htot]
      cases hw : weighted_walk oracle.uniform_draw 0 (_top_pools pools) with
      | some q =>
          refine ⟨q, rfl, ?_, ?_⟩
          · exact weighted_walk_mem _ _ _ _ hw
          · obtain ⟨⟨q2, sc⟩, hq2, he⟩ :=
              List.mem_map.mp (weighted_walk_mem _ _ _ _ hw)
            exact he ▸ _top_pools_subset pools q2 sc hq2
      | none =>
          cases hl : (_top_pools pools).getLast? with
          | none => exact absurd (List.getLast?_eq_none_iff.mp hl) htopne
          | some e =>
              obtain ⟨q, sc⟩ := e
              refine ⟨q, rfl, ?_, ?_⟩
              · exact List.mem_map.mpr
                  ⟨(q, sc), List.mem_of_mem_getLast? (by rw [hl]; rfl), rfl⟩
              · exact _top_pools_subset pools q sc
                  (List.mem_of_mem_getLast? (by rw [hl]; rfl))
  · -- zero total: exactly the uniform choice over the top pools
    intro htot
    unfold _select_weighted_pool
    rw [if_neg (by rw [hemp]; exact Bool.false_ne_true)]
    dsimp only
    rw [if_pos htot]
  · -- determinism in the pool list and the PRNG draws
    intro pools2 oracle2 h1 h2
    subst h1
    subst h2
    rfl

open GlobalLoadBalancer in
/-- Witness for C9 at a one-pool list. -/
theorem C9_weighted_selection_witness :
    ([({ name := "w", region := "r", url := "u" } : PoolEndpoint)] ≠ []) ∧
    ((∃ p, _select_weighted_pool
        [({ name := "w", region := "r", url := "u" } : PoolEndpoint)]
        ⟨0, 0⟩ = some p ∧
      p ∈ (_top_pools
        [({ name := "w", region := "r", url := "u" } : PoolEndpoint)]).map
          (fun s => s.1) ∧
      p ∈ [({ name := "w", region := "r", url := "u" } : PoolEndpoint)]) ∧
    (((_top_pools
        [({ name := "w", region := "r", url := "u" } : PoolEndpoint)]).map
          (fun s => s.2)).sum = 0 →
      _select_weighted_pool
        [({ name := "w", region := "r", url := "u" } : PoolEndpoint)]
        ⟨0, 0⟩ =
        ((_top_pools
          [({ name := "w", region := "r", url := "u" } : PoolEndpoint)]).map
            (fun s => s.1))[(0 : Nat) %
          ((_top_pools
            [({ name := "w", region := "r", url := "u" } : PoolEndpoint)]).map
              (fun s => s.1)).length]?) ∧
    (∀ (pools2 : List PoolEndpoint) (oracle2 : RandomOracle),
      [({ name := "w", region := "r", url := "u" } : PoolEndpoint)] = pools2 →
      (⟨0, 0⟩ : RandomOracle) = oracle2 →
      _select_weighted_pool
        [({ name := "w", region := "r", url := "u" } : PoolEndpoint)] ⟨0, 0⟩
        = _select_weighted_pool pools2 oracle2)) :=
  ⟨List.cons_ne_nil _ _,
    C9_weighted_selection_total_and_deterministic
      [{ name := "w", region := "r", url := "u" }] ⟨0, 0⟩
      (List.cons_ne_nil _ _)⟩


namespace CodeSandbox

theorem run_code_not_created (s : CodeSandbox) (h : s.container = none)
    (code language : String) (files : List (String × String))
    (duration : Nat) (res : ExecResult) :
    run_code s code language files duration res =
      (s, .error (.runtimeError "Sandbox not created. Call create() first.")) := by
  unfold run_code
  rw [h]

theorem write_file_safe_eq (s : CodeSandbox) (c : Container) (p ct : String)
    (hc : s.container = some c)
    (hsafe : ¬ (containsSub (lstripSlash (normpath p)) ".." = true ∨
      pyStartsWith (lstripSlash (normpath p)) "/" = true)) :
    write_file s p ct =
      ({ s with container := some { c with
          files := ainsert c.files (lstripSlash (normpath p)) ct
          calls := c.calls ++ [.put_archive (lstripSlash (normpath p))] } },
        .ok true) := by
  unfold write_file
  rw [hc]
  dsimp only
  rw [if_neg hsafe]

theorem upload_fold_shape (files : List (String × String)) :
    ∀ (sb : CodeSandbox) (c : Container), sb.container = some c →
      ∃ c', files.foldl (fun s kv => (write_file s kv.1 kv.2).1) sb
        = { sb with container := some c' } := by
  induction files with
  | nil =>
      intro sb c h
      exact ⟨c, by simp only [List.foldl_nil]; rw [← h]⟩
  | cons kv rest ih =>
      intro sb c h
      simp only [List.foldl_cons]
      have hstep : ∃ c₁, (write_file sb kv.1 kv.2).1
          = { sb with container := some c₁ } := by
        unfold write_file
        rw [h]
        dsimp only
        split_ifs
        · exact ⟨c, by rw [← h]⟩
        · exact ⟨_, rfl⟩
      obtain ⟨c₁, hc₁⟩ := hstep
      rw [hc₁]
      obtain ⟨c', hc'⟩ := ih { sb with container := some c₁ } c₁ rfl
      rw [hc']
      exact ⟨c', rfl⟩

theorem _prepare_execution_source_safe (language code : String)
    (cmdsrc : List String × String)
    (h : _prepare_execution language code = .ok cmdsrc) :
    ¬ (containsSub (lstripSlash (normpath cmdsrc.2)) ".." = true ∨
      pyStartsWith (lstripSlash (normpath cmdsrc.2)) "/" = true) := by
  unfold _prepare_execution at h
  dsimp only at h
  split_ifs at h
  all_goals first
    | (injection h with h; subst h; decide)
    | cases h

theorem _exec_run_with_timeout_expired (s : CodeSandbox) (c : Container)
    (cmd : List String) (duration : Nat) (res : ExecResult)
    (hc : s.container = some c) (ht : s.timeout < duration) :
    _exec_run_with_timeout s cmd duration res =
      (destroy s, .error (.sandboxTimeout
        ("Execution exceeded timeout (" ++ toString s.timeout ++ "s)"))) := by
  unfold _exec_run_with_timeout
  rw [hc]
  dsimp only
  rw [if_pos ht]

end CodeSandbox

open CodeSandbox in
/-- C1: when the submitted command outlives the configured timeout,
`run_code` catches the timeout raised by the bounded worker (whose pending
future has been cancelled and whose container has been force-destroyed,
clearing the handle) and returns a `TimeoutError` response with
`exit_code = -1`; the sandbox handle is `none` afterwards, so every later
`run_code` on the same instance fails with the "Sandbox not created"
`RuntimeError` without touching any container. -/
theorem C1_timeout_destroys_sandbox (sb : CodeSandbox) (c : Container)
    (code language : String) (files : List (String × String))
    (duration : Nat) (res : ExecResult) (cmdsrc : List String × String)
    (hc : sb.container = some c)
    (hprep : _prepare_execution language code = .ok cmdsrc)
    (htime : sb.timeout < duration) :
    (run_code sb code language files duration res).2 = .ok
      { status := "error"
        exit_code := -1
        stdout := ""
        stderr := "Execution exceeded timeout (" ++ toString sb.timeout ++ "s)"
        error := some
          ("Execution exceeded timeout (" ++ toString sb.timeout ++ "s)")
        container_id := sb.container_id
        language := language } ∧
    (run_code sb code language files duration res).1.container = none ∧
    (∀ (code2 language2 : String) (files2 : List (String × String))
        (duration2 : Nat) (res2 : ExecResult),
      run_code (run_code sb code language files duration res).1
          code2 language2 files2 duration2 res2 =
        ((run_code sb code language files duration res).1,
          .error (.runtimeError "Sandbox not created. Call create() first."))) := by
  obtain ⟨c1, hfold⟩ := upload_fold_shape files sb c hc
  have hsrc := _prepare_execution_source_safe language code cmdsrc hprep
  have hrc : run_code sb code language files duration res =
      (destroy { sb with container := some { c1 with
          files := ainsert c1.files (lstripSlash (normpath cmdsrc.2)) code
          calls := c1.calls ++
            [.put_archive (lstripSlash (normpath cmdsrc.2))] } },
        .ok { status := "error"
              exit_code := -1
              stdout := ""
              stderr := "Execution exceeded timeout ("
                ++ toString sb.timeout ++ "s)"
              error := some ("Execution exceeded timeout ("
                ++ toString sb.timeout ++ "s)")
              container_id := sb.container_id
              language := language }) := by
    unfold run_code
    rw [hc]
    dsimp only
    rw [hprep]
    dsimp only
    rw [hfold]
    rw [write_file_safe_eq { sb with container := some c1 } c1
      cmdsrc.2 code rfl hsrc]
    dsimp only
    rw [_exec_run_with_timeout_expired _ _ cmdsrc.1 duration res (by rfl)
      (by exact htime)]
  refine ⟨?_, ?_, ?_⟩
  · rw [hrc]
  · rw [hrc]
    rfl
  · intro code2 language2 files2 duration2 res2
    exact run_code_not_created _ (by rw [hrc]; rfl) _ _ _ _ _

open CodeSandbox in
/-- Witness for C1: the default 30-second sandbox, a python command whose
duration is 31 seconds. -/
theorem C1_timeout_destroys_sandbox_witness :
    (({ container := some {}, container_id := "w1" } :
        CodeSandbox).container = some {}) ∧
    (_prepare_execution "python" "x" = .ok (["python", "main.py"], "main.py")) ∧
    (({ container := some {}, container_id := "w1" } :
        CodeSandbox).timeout < 31) ∧
    ((run_code { container := some {}, container_id := "w1" }
        "x" "python" [] 31 ⟨0, "", ""⟩).2 = .ok
      { status := "error"
        exit_code := -1
        stdout := ""
        stderr := "Execution exceeded timeout ("
          ++ toString ({ container := some {}, container_id := "w1" } :
            CodeSandbox).timeout ++ "s)"
        error := some ("Execution exceeded timeout ("
          ++ toString ({ container := some {}, container_id := "w1" } :
            CodeSandbox).timeout ++ "s)")
        container_id := "w1"
        language := "python" } ∧
    (run_code { container := some {}, container_id := "w1" }
        "x" "python" [] 31 ⟨0, "", ""⟩).1.container = none ∧
    (∀ (code2 language2 : String) (files2 : List (String × String))
        (duration2 : Nat) (res2 : ExecResult),
      run_code (run_code { container := some {}, container_id := "w1" }
          "x" "python" [] 31 ⟨0, "", ""⟩).1
          code2 language2 files2 duration2 res2 =
        ((run_code { container := some {}, container_id := "w1" }
            "x" "python" [] 31 ⟨0, "", ""⟩).1,
          .error (.runtimeError "Sandbox not created. Call create() first.")))) :=
  ⟨rfl, rfl,
    by decide,
    C1_timeout_destroys_sandbox { container := some {}, container_id := "w1" }
      {} "x" "python" [] 31 ⟨0, "", ""⟩ (["python", "main.py"], "main.py")
      rfl rfl (by decide)⟩

open CodeSandbox in
/-- C3 as stated is false: `run_code` uploads the `files` argument to the
container *before* validating the language, so an unsupported language with a
non-empty `files` dict still performs container interaction — here the file
`data.txt` has been uploaded (one `put_archive` call) by the time the
`UnsupportedLanguageError` (`ValueError`) propagates. -/
theorem C3_unsupported_language_counterexample :
    (run_code { container := some {}, container_id := "c3" }
        "x" "cobol" [("data.txt", "hi")] 0 ⟨0, "", ""⟩).2 =
      .error (.valueError "Unsupported language: cobol") ∧
    (run_code { container := some {}, container_id := "c3" }
        "x" "cobol" [("data.txt", "hi")] 0 ⟨0, "", ""⟩).1.container =
      some { files := [("data.txt", "hi")],
             calls := [.put_archive "data.txt"] } := by
  constructor
  · rfl
  · rfl

open CodeSandbox in
/-- C3 amended: for every sandbox with a container and every unsupported
language, `run_code` fails with the `ValueError` (the
`UnsupportedLanguageError` of the spec) raised by `_prepare_execution`, and
no launch command is executed and no source file written — the state after
the call is exactly the state after the upload loop over the `files`
argument, which runs before the language check; in particular with no files
there is no container interaction at all. -/
theorem C3_unsupported_language_amended (sb : CodeSandbox) (c : Container)
    (code language : String) (files : List (String × String))
    (duration : Nat) (res : ExecResult) (e : SandboxErr)
    (hc : sb.container = some c)
    (hprep : _prepare_execution language code = .error e) :
    (run_code sb code language files duration res).2 = .error e ∧
    (run_code sb code language files duration res).1 =
      files.foldl (fun s kv => (write_file s kv.1 kv.2).1) sb ∧
    (files = [] → (run_code sb code language files duration res).1 = sb) ∧
    (∃ msg, e = .valueError msg) := by
  have hrc : run_code sb code language files duration res =
      (files.foldl (fun s kv => (write_file s kv.1 kv.2).1) sb, .error e) := by
    unfold run_code
    rw [hc]
    dsimp only
    rw [hprep]
  refine ⟨by rw [hrc], by rw [hrc], ?_, ?_⟩
  · intro hf
    subst hf
    rw [hrc]
    rfl
  · unfold _prepare_execution at hprep
    dsimp only at hprep
    split_ifs at hprep
    all_goals first
      | (injection hprep with hprep; exact ⟨_, hprep.symm⟩)
      | injection hprep

open CodeSandbox in
/-- Witness for C3 amended: an empty sandbox, language cobol, no files. -/
theorem C3_unsupported_language_amended_witness :
    (({ container := some {}, container_id := "c3w" } :
        CodeSandbox).container = some {}) ∧
    (_prepare_execution "cobol" "x" =
      .error (.valueError "Unsupported language: cobol")) ∧
    ((run_code { container := some {}, container_id := "c3w" }
        "x" "cobol" [] 0 ⟨0, "", ""⟩).2 =
      .error (.valueError "Unsupported language: cobol") ∧
    (run_code { container := some {}, container_id := "c3w" }
        "x" "cobol" [] 0 ⟨0, "", ""⟩).1 =
      ([] : List (String × String)).foldl
        (fun s kv => (write_file s kv.1 kv.2).1)
        { container := some {}, container_id := "c3w" } ∧
    (([] : List (String × String)) = [] →
      (run_code { container := some {}, container_id := "c3w" }
        "x" "cobol" [] 0 ⟨0, "", ""⟩).1 =
        { container := some {}, container_id := "c3w" }) ∧
    (∃ msg, (SandboxErr.valueError "Unsupported language: cobol") =
      .valueError msg)) :=
  ⟨rfl, rfl,
    C3_unsupported_language_amended
      { container := some {}, container_id := "c3w" } {} "x" "cobol" [] 0
      ⟨0, "", ""⟩ (.valueError "Unsupported language: cobol") rfl rfl⟩


theorem mem_dropWhile_of_mem {p : Char → Bool} :
    ∀ (l : List Char) (c : Char), p c = false → c ∈ l → c ∈ l.dropWhile p := by
  intro l c hp
  induction l with
  | nil => intro h; cases h
  | cons hd tl ih =>
      intro h
      by_cases hph : p hd = true
      · rw [List.dropWhile_cons_of_pos hph]
        rcases List.mem_cons.mp h with he | hm
        · rw [he] at hp
          rw [hph] at hp
          cases hp
        · exact ih hm
      · rw [List.dropWhile_cons_of_neg hph]
        exact h

theorem mem_pystrip (s : String) (c : Char) (hnw : isPyWhitespace c = false)
    (h : c ∈ s.toList) : c ∈ (pystrip s).toList := by
  unfold pystrip
  show c ∈ (((s.toList.dropWhile isPyWhitespace).reverse.dropWhile
    isPyWhitespace).reverse)
  rw [List.mem_reverse]
  apply mem_dropWhile_of_mem _ _ hnw
  rw [List.mem_reverse]
  exact mem_dropWhile_of_mem _ _ hnw h

theorem check_components_err :
    ∀ (parts : List String) (part : String), part ∈ parts →
      ¬ (part = "." ∨ part = "..") → safe_filename part = false →
      ∃ e, check_components parts = .error e := by
  intro parts
  induction parts with
  | nil => intro part h; cases h
  | cons hd tl ih =>
      intro part hmem hno hbad
      unfold check_components
      by_cases hskip : hd = "." ∨ hd = ".."
      · rw [if_pos hskip]
        rcases List.mem_cons.mp hmem with he | hm
        · exact absurd (he ▸ hskip) hno
        · exact ih part hm hno hbad
      · rw [if_neg hskip]
        by_cases hsafe : safe_filename hd = true
        · rw [if_neg (by simp [hsafe])]
          by_cases hdng : dangerous_extension hd = true
          · rw [if_pos hdng]
            exact ⟨_, rfl⟩
          · rw [if_neg hdng]
            rcases List.mem_cons.mp hmem with he | hm
            · rw [← he] at hsafe
              rw [hsafe] at hbad
              cases hbad
            · exact ih part hm hno hbad
        · rw [if_pos (by simpa using hsafe)]
          exact ⟨_, rfl⟩

theorem validate_err_of_bad_path (p : String) (hbad : claim_bad_path p) :
    ∃ e, validate p = .error e := by
  by_cases hemp : p = ""
  · subst hemp
    exact absurd hbad (by unfold claim_bad_path; decide)
  · unfold validate
    rw [if_neg hemp]
    dsimp only
    by_cases hnull : (pystrip p).toList.contains (Char.ofNat 0) = true
    · rw [if_pos hnull]
      exact ⟨_, rfl⟩
    · rw [if_neg hnull]
      by_cases htrav : (path_parts (pystrip p)).contains ".." = true
      · rw [if_pos htrav]
        exact ⟨_, rfl⟩
      · rw [if_neg htrav]
        by_cases habs : pyStartsWith (pystrip p) "/" = true
        · rw [if_pos habs]
          exact ⟨_, rfl⟩
        · rw [if_neg habs]
          rcases hbad with h | h | h | ⟨part, hmem, hbadpart⟩
          · exact absurd h htrav
          · exact absurd h habs
          · refine absurd ?_ hnull
            exact List.elem_eq_true_of_mem
              (mem_pystrip p (Char.ofNat 0) (by decide)
                (List.mem_of_elem_eq_true h))
          · have hno : ¬ (part = "." ∨ part = "..") := by
              have hmem2 := hmem
              unfold path_parts at hmem2
              dsimp only at hmem2
              rw [if_neg habs] at hmem2
              have hpred := (List.mem_filter.mp hmem2).2
              have hpred2 := of_decide_eq_true hpred
              rintro (he | he)
              · exact hpred2.2 he
              · rw [he] at hmem
                exact htrav (List.elem_eq_true_of_mem hmem)
            obtain ⟨e, he⟩ :=
              check_components_err (path_parts (pystrip p)) part hmem hno hbadpart
            rw [he]
            exact ⟨_, rfl⟩

open CodeSandbox in
/-- C2 as stated is false for the sandbox file API it names:
`CodeSandbox.write_file` strips the leading slash of an absolute path instead
of failing, uploads the file (a `put_archive` call — filesystem interaction)
and reports success. -/
theorem C2_sandbox_write_file_counterexample :
    write_file { container := some {}, container_id := "s" }
        "/etc/passwd" "x" =
      ({ container := some
          { files := [("etc/passwd", "x")]
            calls := [.put_archive "etc/passwd"] }
         container_id := "s" }, .ok true) := by
  rfl

open FileSystemManager in
/-- C2 amended: the full validation lives in the `FileSystemManager` file API
backed by `SecurePathValidator`: for every path whose stripped form contains
a `..` traversal segment, is absolute, contains a null byte, or has a
component with a character outside the word/dot/hyphen allow-list, the
validator raises `PathSecurityError`; `write_file` returns it as a failure
dict and `read_file` wraps it as an internal error, and neither performs any
container interaction (the manager state, including the Docker call log, is
unchanged).  `CodeSandbox.write_file`/`read_file` enforce only the
`..`-substring check on the normalized path (see the counterexample). -/
theorem C2_path_validation_amended (m : FileSystemManager)
    (p content : String) (max_size : Option Nat) (hbad : claim_bad_path p) :
    ∃ e, validate p = .error e ∧
      m.write_file p content = (m, { success := false, error := some e }) ∧
      m.read_file p max_size =
        (m, { success := false, error := some ("Internal error: " ++ e) }) := by
  obtain ⟨e, he⟩ := validate_err_of_bad_path p hbad
  refine ⟨e, he, ?_, ?_⟩
  · unfold write_file
    rw [he]
  · unfold read_file
    rw [he]

open FileSystemManager in
/-- Witness for C2 amended at the absolute path `/etc/passwd`. -/
theorem C2_path_validation_amended_witness :
    claim_bad_path "/etc/passwd" ∧
    (∃ e, validate "/etc/passwd" = .error e ∧
      FileSystemManager.write_file { container := {} } "/etc/passwd" "x" =
        ({ container := {} }, { success := false, error := some e }) ∧
      FileSystemManager.read_file { container := {} } "/etc/passwd" none =
        ({ container := {} },
          { success := false, error := some ("Internal error: " ++ e) })) :=
  ⟨by unfold claim_bad_path; decide,
    C2_path_validation_amended { container := {} } "/etc/passwd" "x" none
      (by unfold claim_bad_path; decide)⟩


open SessionManager in
/-- C6: looking up a registered active session whose idle time strictly
exceeds its TTL destroys it as a side effect — `get_session` reports not
found, the registry entry is gone, and the sandbox destruction is recorded;
a non-expired active session is returned touched (fresh `last_used`,
incremented `use_count`) and stays registered in touched form. -/
theorem C6_expired_lookup_destroys (m : SessionManager) (now : ℚ)
    (sid : String) (s : Session)
    (hnd : (m.sessions.map Prod.fst).Nodup)
    (hs : alookup m.sessions sid = some s)
    (hactive : s.is_active = true) :
    ((s.ttl : ℚ) < now - s.last_used →
      (m.get_session now sid).2 = none ∧
      alookup (m.get_session now sid).1.sessions sid = none ∧
      (m.get_session now sid).1.destroy_log = m.destroy_log ++ [sid]) ∧
    (now - s.last_used ≤ (s.ttl : ℚ) →
      (m.get_session now sid).2 = some (s.touch now) ∧
      alookup (m.get_session now sid).1.sessions sid = some (s.touch now)) := by
  constructor
  · intro hexp
    have hexpb : s.is_expired now = true := by
      unfold Session.is_expired Session.idle_time
      exact decide_eq_true hexp
    have hgs : m.get_session now sid = ((_destroy_session_unlocked m sid).1, none) := by
      unfold get_session
      rw [hs]
      dsimp only
      rw [if_neg (by simp [hactive]), if_pos hexpb]
    have hd : (_destroy_session_unlocked m sid).1 =
        { m with
            sessions := aerase m.sessions sid
            metrics := { m.metrics with
              sessions_destroyed := m.metrics.sessions_destroyed + 1 }
            destroy_log := m.destroy_log ++ [sid] } := by
      unfold _destroy_session_unlocked
      rw [hs]
    rw [hgs, hd]
    exact ⟨rfl, alookup_aerase m.sessions sid hnd, rfl⟩
  · intro hfresh
    have hexpb : s.is_expired now = false := by
      unfold Session.is_expired Session.idle_time
      exact decide_eq_false (not_lt.mpr hfresh)
    have hgs : m.get_session now sid =
        ({ m with
            sessions := ainsert m.sessions sid (s.touch now)
            metrics := { m.metrics with
              sessions_reused := m.metrics.sessions_reused + 1 } },
          some (s.touch now)) := by
      unfold get_session
      rw [hs]
      dsimp only
      rw [if_neg (by simp [hactive]), if_neg (by simp [hexpb])]
    rw [hgs]
    exact ⟨rfl, alookup_ainsert m.sessions sid (s.touch now)⟩

open SessionManager in
/-- Witness for C6: a single session with `ttl = 10` idle for 20 seconds. -/
theorem C6_expired_lookup_destroys_witness :
    (((SessionManager.mk 300 10
        [("s1", { id := "s1"
                  sandbox := { container := some {}, container_id := "s1" }
                  template := "default", created_at := 0, last_used := 0
                  ttl := 10 })] {} []).sessions.map Prod.fst).Nodup ∧
     alookup (SessionManager.mk 300 10
        [("s1", { id := "s1"
                  sandbox := { container := some {}, container_id := "s1" }
                  template := "default", created_at := 0, last_used := 0
                  ttl := 10 })] {} []).sessions "s1" =
       some { id := "s1"
              sandbox := { container := some {}, container_id := "s1" }
              template := "default", created_at := 0, last_used := 0
              ttl := 10 } ∧
     ({ id := "s1", sandbox := { container := some {}, container_id := "s1" }
        template := "default", created_at := 0, last_used := 0
        ttl := 10 } : Session).is_active = true) ∧
    ((((10 : ℤ) : ℚ) < 20 - 0 →
      ((SessionManager.mk 300 10
        [("s1", { id := "s1"
                  sandbox := { container := some {}, container_id := "s1" }
                  template := "default", created_at := 0, last_used := 0
                  ttl := 10 })] {} []).get_session 20 "s1").2 = none ∧
      alookup ((SessionManager.mk 300 10
        [("s1", { id := "s1"
                  sandbox := { container := some {}, container_id := "s1" }
                  template := "default", created_at := 0, last_used := 0
                  ttl := 10 })] {} []).get_session 20 "s1").1.sessions "s1"
        = none ∧
      ((SessionManager.mk 300 10
        [("s1", { id := "s1"
                  sandbox := { container := some {}, container_id := "s1" }
                  template := "default", created_at := 0, last_used := 0
                  ttl := 10 })] {} []).get_session 20 "s1").1.destroy_log
        = [] ++ ["s1"]) ∧
    (20 - 0 ≤ ((10 : ℤ) : ℚ) →
      ((SessionManager.mk 300 10
        [("s1", { id := "s1"
                  sandbox := { container := some {}, container_id := "s1" }
                  template := "default", created_at := 0, last_used := 0
                  ttl := 10 })] {} []).get_session 20 "s1").2 =
        some (Session.touch
          { id := "s1", sandbox := { container := some {}, container_id := "s1" }
            template := "default", created_at := 0, last_used := 0
            ttl := 10 } 20) ∧
      alookup ((SessionManager.mk 300 10
        [("s1", { id := "s1"
                  sandbox := { container := some {}, container_id := "s1" }
                  template := "default", created_at := 0, last_used := 0
                  ttl := 10 })] {} []).get_session 20 "s1").1.sessions "s1" =
        some (Session.touch
          { id := "s1", sandbox := { container := some {}, container_id := "s1" }
            template := "default", created_at := 0, last_used := 0
            ttl := 10 } 20))) :=
  ⟨⟨by decide, by decide, rfl⟩,
    C6_expired_lookup_destroys
      (SessionManager.mk 300 10
        [("s1", { id := "s1"
                  sandbox := { container := some {}, container_id := "s1" }
                  template := "default", created_at := 0, last_used := 0
                  ttl := 10 })] {} []) 20 "s1"
      { id := "s1", sandbox := { container := some {}, container_id := "s1" }
        template := "default", created_at := 0, last_used := 0, ttl := 10 }
      (by decide) (by decide) rfl⟩

open SessionManager in
/-- C7: with the registry at `max_sessions`, `create_session` first sweeps
expired sessions; if the count is still at the limit it fails with the
capacity error (no queueing); otherwise a sandbox is provisioned, the
session registered with the requested template/TTL/metadata, and its id
returned. -/
theorem C7_create_session_capacity (m : SessionManager) (now : ℚ)
    (template : String) (ttl? : Option ℤ) (metadata : List (String × String))
    (new_id : String)
    (hfull : m.max_sessions ≤ m.sessions.length) :
    (m.max_sessions ≤ (m._cleanup_expired now).sessions.length →
      m.create_session now template ttl? metadata new_id true =
        (m._cleanup_expired now,
          .error (.capacityError "Maximum session limit reached"))) ∧
    ((m._cleanup_expired now).sessions.length < m.max_sessions →
      (m.create_session now template ttl? metadata new_id true).2 =
        .ok new_id ∧
      alookup (m.create_session now template ttl? metadata new_id
          true).1.sessions new_id =
        some { id := new_id
               sandbox := { container := some {}, container_id := new_id }
               template := template
               created_at := now
               last_used := now
               ttl := match ttl? with
                 | some t => if t = 0 then m.default_ttl else t
                 | none => m.default_ttl
               metadata := metadata }) := by
  constructor
  · intro hstill
    unfold create_session
    dsimp only
    rw [if_pos hfull, if_pos hstill]
  · intro hroom
    have hcr : m.create_session now template ttl? metadata new_id true =
        ({ (m._cleanup_expired now) with
            sessions := ainsert (m._cleanup_expired now).sessions new_id
              { id := new_id
                sandbox := { container := some {}, container_id := new_id }
                template := template
                created_at := now
                last_used := now
                ttl := match ttl? with
                  | some t => if t = 0 then m.default_ttl else t
                  | none => m.default_ttl
                metadata := metadata }
            metrics := { (m._cleanup_expired now).metrics with
              sessions_created :=
                (m._cleanup_expired now).metrics.sessions_created + 1 } },
          .ok new_id) := by
      unfold create_session
      dsimp only
      rw [if_pos hfull, if_neg (not_le.mpr hroom),
        if_neg (by simp)]
    rw [hcr]
    exact ⟨rfl, alookup_ainsert _ _ _⟩

open SessionManager in
/-- Witness for C7: a manager with `max_sessions = 1` holding one expired
session; the sweep frees the slot and creation succeeds. -/
theorem C7_create_session_capacity_witness :
    ((SessionManager.mk 300 1
        [("old", { id := "old"
                   sandbox := { container := some {}, container_id := "old" }
                   template := "default", created_at := 0, last_used := 0
                   ttl := 10 })] {} []).max_sessions ≤
      (SessionManager.mk 300 1
        [("old", { id := "old"
                   sandbox := { container := some {}, container_id := "old" }
                   template := "default", created_at := 0, last_used := 0
                   ttl := 10 })] {} []).sessions.length) ∧
    (((SessionManager.mk 300 1
        [("old", { id := "old"
                   sandbox := { container := some {}, container_id := "old" }
                   template := "default", created_at := 0, last_used := 0
                   ttl := 10 })] {} []).max_sessions ≤
        ((SessionManager.mk 300 1
        [("old", { id := "old"
                   sandbox := { container := some {}, container_id := "old" }
                   template := "default", created_at := 0, last_used := 0
                   ttl := 10 })] {} [])._cleanup_expired 20).sessions.length →
      (SessionManager.mk 300 1
        [("old", { id := "old"
                   sandbox := { container := some {}, container_id := "old" }
                   template := "default", created_at := 0, last_used := 0
                   ttl := 10 })] {} []).create_session 20 "default" none []
          "new1" true =
        ((SessionManager.mk 300 1
        [("old", { id := "old"
                   sandbox := { container := some {}, container_id := "old" }
                   template := "default", created_at := 0, last_used := 0
                   ttl := 10 })] {} [])._cleanup_expired 20,
          .error (.capacityError "Maximum session limit reached"))) ∧
    (((SessionManager.mk 300 1
        [("old", { id := "old"
                   sandbox := { container := some {}, container_id := "old" }
                   template := "default", created_at := 0, last_used := 0
                   ttl := 10 })] {} [])._cleanup_expired 20).sessions.length <
        (SessionManager.mk 300 1
        [("old", { id := "old"
                   sandbox := { container := some {}, container_id := "old" }
                   template := "default", created_at := 0, last_used := 0
                   ttl := 10 })] {} []).max_sessions →
      ((SessionManager.mk 300 1
        [("old", { id := "old"
                   sandbox := { container := some {}, container_id := "old" }
                   template := "default", created_at := 0, last_used := 0
                   ttl := 10 })] {} []).create_session 20 "default" none []
          "new1" true).2 = .ok "new1" ∧
      alookup ((SessionManager.mk 300 1
        [("old", { id := "old"
                   sandbox := { container := some {}, container_id := "old" }
                   template := "default", created_at := 0, last_used := 0
                   ttl := 10 })] {} []).create_session 20 "default" none []
          "new1" true).1.sessions "new1" =
        some { id := "new1"
               sandbox := { container := some {}, container_id := "new1" }
               template := "default"
               created_at := 20
               last_used := 20
               ttl := match (none : Option ℤ) with
                 | some t => if t = 0 then (300 : ℤ) else t
                 | none => (300 : ℤ)
               metadata := [] })) :=
  ⟨by decide,
    C7_create_session_capacity
      (SessionManager.mk 300 1
        [("old", { id := "old"
                   sandbox := { container := some {}, container_id := "old" }
                   template := "default", created_at := 0, last_used := 0
                   ttl := 10 })] {} []) 20 "default" none [] "new1"
      (by decide)⟩


namespace SessionPersistenceManager

theorem save_fold_frame (sid : String) :
    ∀ (entries : List (String × SessionState))
      (pm : SessionPersistenceManager),
      (∀ kv ∈ entries, kv.2.session_id ≠ sid) →
      alookup (entries.foldl (fun acc kv => _save_session acc kv.2)
        pm).redis_store sid = alookup pm.redis_store sid := by
  intro entries
  induction entries with
  | nil => intro pm _; rfl
  | cons kv rest ih =>
      intro pm hne
      simp only [List.foldl_cons]
      rw [ih _ (fun x hx => hne x (List.mem_cons_of_mem _ hx))]
      unfold _save_session
      exact alookup_ainsert_ne _ _ _ _ (hne kv (List.mem_cons_self _ _))

theorem save_fold_lookup (sid : String) (st : SessionState) :
    ∀ (entries : List (String × SessionState))
      (pm : SessionPersistenceManager),
      (∀ kv ∈ entries, kv.2.session_id = kv.1) →
      (entries.map Prod.fst).Nodup →
      alookup entries sid = some st →
      alookup (entries.foldl (fun acc kv => _save_session acc kv.2)
        pm).redis_store sid = some { st with files := [] } := by
  intro entries
  induction entries with
  | nil => intro pm _ _ h; cases h
  | cons kv rest ih =>
      intro pm hid hnd hl
      obtain ⟨k, v⟩ := kv
      simp only [List.map_cons, List.nodup_cons] at hnd
      unfold alookup at hl
      simp only [List.foldl_cons]
      by_cases hk : k = sid
      · rw [if_pos hk] at hl
        injection hl with hl
        subst hl
        subst hk
        have hvid : v.session_id = k := hid (k, v) (List.mem_cons_self _ _)
        rw [save_fold_frame k rest _ ?hrest]
        case hrest =>
          intro x hx he
          exact hnd.1 (he ▸ (hid x (List.mem_cons_of_mem _ hx)) ▸
            List.mem_map_of_mem Prod.fst hx)
        unfold _save_session
        rw [hvid]
        exact alookup_ainsert _ _ _
      · rw [if_neg hk] at hl
        exact ih _ (fun x hx => hid x (List.mem_cons_of_mem _ hx)) hnd.2 hl

end SessionPersistenceManager

open SessionPersistenceManager in
/-- C10: for an existing session, `update_session` applies the field updates
and refreshes `last_activity` only in the in-memory cache and returns
`True`; the durable store (both the scalar records and the file hashes) is
left unchanged — the persisted record changes only when a snapshot/shutdown
flush (`_save_all_sessions`) later writes the cached record (files
excluded); on a missing session it returns `False` with no state change. -/
theorem C10_update_session_cache_only (pm : SessionPersistenceManager)
    (now_iso sid : String) (updates : List FieldUpdate) :
    (∀ st, pm.get_session sid = some st →
      pm.update_session now_iso sid updates =
        ({ pm with _active_sessions := (ainsert pm._active_sessions sid
            { (updates.foldl apply_update st) with
              last_activity := now_iso }) },
          true) ∧
      (pm.update_session now_iso sid updates).1.redis_store =
        pm.redis_store ∧
      (pm.update_session now_iso sid updates).1.redis_files =
        pm.redis_files ∧
      alookup (pm.update_session now_iso sid updates).1._active_sessions sid =
        some { (updates.foldl apply_update st) with
          last_activity := now_iso }) ∧
    (pm.get_session sid = none →
      pm.update_session now_iso sid updates = (pm, false)) ∧
    (∀ (pm2 : SessionPersistenceManager) (st2 : SessionState),
      alookup pm2._active_sessions sid = some st2 →
      (∀ kv ∈ pm2._active_sessions, kv.2.session_id = kv.1) →
      (pm2._active_sessions.map Prod.fst).Nodup →
      alookup pm2._save_all_sessions.redis_store sid =
        some { st2 with files := [] }) := by
  refine ⟨?_, ?_, ?_⟩
  · intro st hst
    have hu : pm.update_session now_iso sid updates =
        ({ pm with _active_sessions := (ainsert pm._active_sessions sid
            { (updates.foldl apply_update st) with
              last_activity := now_iso }) },
          true) := by
      unfold update_session
      rw [hst]
    rw [hu]
    exact ⟨rfl, rfl, rfl, alookup_ainsert _ _ _⟩
  · intro hst
    unfold update_session
    rw [hst]
  · intro pm2 st2 hl hid hnd
    exact save_fold_lookup sid st2 pm2._active_sessions pm2 hid hnd hl

open SessionPersistenceManager in
/-- Witness for C10: a manager caching one session that also has a stale
durable record; the update rewrites only the cache, and a flush then
persists it. -/
theorem C10_update_session_cache_only_witness :
    ((SessionPersistenceManager.mk true 10485760
        [("s", { session_id := "s", pool_name := "p0", pod_name := "pod0"
                 template := "default", created_at := "T0"
                 last_activity := "T0", expires_at := "T9" })]
        [("s", { session_id := "s", pool_name := "p0", pod_name := "pod0"
                 template := "default", created_at := "T0"
                 last_activity := "T0", expires_at := "T9" })]
        []).get_session "s" =
      some { session_id := "s", pool_name := "p0", pod_name := "pod0"
             template := "default", created_at := "T0"
             last_activity := "T0", expires_at := "T9" }) ∧
    ((SessionPersistenceManager.mk true 10485760
        [("s", { session_id := "s", pool_name := "p0", pod_name := "pod0"
                 template := "default", created_at := "T0"
                 last_activity := "T0", expires_at := "T9" })]
        [("s", { session_id := "s", pool_name := "p0", pod_name := "pod0"
                 template := "default", created_at := "T0"
                 last_activity := "T0", expires_at := "T9" })]
        []).update_session "T1" "s" [.pool_name "p1"] =
      ({ SessionPersistenceManager.mk true 10485760
          [("s", { session_id := "s", pool_name := "p0", pod_name := "pod0"
                   template := "default", created_at := "T0"
                   last_activity := "T0", expires_at := "T9" })]
          [("s", { session_id := "s", pool_name := "p0", pod_name := "pod0"
                   template := "default", created_at := "T0"
                   last_activity := "T0", expires_at := "T9" })]
          [] with
         _active_sessions := ainsert
          [("s", { session_id := "s", pool_name := "p0", pod_name := "pod0"
                   template := "default", created_at := "T0"
                   last_activity := "T0", expires_at := "T9" })] "s"
          { ([FieldUpdate.pool_name "p1"].foldl apply_update
              { session_id := "s", pool_name := "p0", pod_name := "pod0"
                template := "default", created_at := "T0"
                last_activity := "T0", expires_at := "T9" }) with
            last_activity := "T1" } },
        true) ∧
    ((SessionPersistenceManager.mk true 10485760
        [("s", { session_id := "s", pool_name := "p0", pod_name := "pod0"
                 template := "default", created_at := "T0"
                 last_activity := "T0", expires_at := "T9" })]
        [("s", { session_id := "s", pool_name := "p0", pod_name := "pod0"
                 template := "default", created_at := "T0"
                 last_activity := "T0", expires_at := "T9" })]
        []).update_session "T1" "s" [.pool_name "p1"]).1.redis_store =
      [("s", { session_id := "s", pool_name := "p0", pod_name := "pod0"
               template := "default", created_at := "T0"
               last_activity := "T0", expires_at := "T9" })] ∧
    ((SessionPersistenceManager.mk true 10485760
        [("s", { session_id := "s", pool_name := "p0", pod_name := "pod0"
                 template := "default", created_at := "T0"
                 last_activity := "T0", expires_at := "T9" })]
        [("s", { session_id := "s", pool_name := "p0", pod_name := "pod0"
                 template := "default", created_at := "T0"
                 last_activity := "T0", expires_at := "T9" })]
        []).update_session "T1" "s" [.pool_name "p1"]).1.redis_files = [] ∧
    alookup ((SessionPersistenceManager.mk true 10485760
        [("s", { session_id := "s", pool_name := "p0", pod_name := "pod0"
                 template := "default", created_at := "T0"
                 last_activity := "T0", expires_at := "T9" })]
        [("s", { session_id := "s", pool_name := "p0", pod_name := "pod0"
                 template := "default", created_at := "T0"
                 last_activity := "T0", expires_at := "T9" })]
        []).update_session "T1" "s"
          [.pool_name "p1"]).1._active_sessions "s" =
      some { ([FieldUpdate.pool_name "p1"].foldl apply_update
          { session_id := "s", pool_name := "p0", pod_name := "pod0"
            template := "default", created_at := "T0"
            last_activity := "T0", expires_at := "T9" }) with
        last_activity := "T1" }) :=
  ⟨rfl,
    (C10_update_session_cache_only
      (SessionPersistenceManager.mk true 10485760
        [("s", { session_id := "s", pool_name := "p0", pod_name := "pod0"
                 template := "default", created_at := "T0"
                 last_activity := "T0", expires_at := "T9" })]
        [("s", { session_id := "s", pool_name := "p0", pod_name := "pod0"
                 template := "default", created_at := "T0"
                 last_activity := "T0", expires_at := "T9" })]
        []) "T1" "s" [.pool_name "p1"]).1
      { session_id := "s", pool_name := "p0", pod_name := "pod0"
        template := "default", created_at := "T0"
        last_activity := "T0", expires_at := "T9" } rfl⟩

end AIOrchestrator
